import Mathlib

/-!
Shallow embedding of the airplane_sim core (message bus, flight-state fusion,
flight-controller dispatch, autopilot PID loops) and proofs of the spec claims.

Conventions of the embedding:
* C `double` fields are modelled as exact rationals (`ℚ`); all operations the
  core performs on them (+, -, *, / by constants, fmin/fmax, comparisons) are
  field operations, so the control-flow claims proved here are claims about the
  ideal-arithmetic behaviour of the code.
* `time_t` / `uint32_t` timestamps are modelled as `Int`; every function that
  calls `time(NULL)` takes the current time `now` as an explicit parameter.
* C structs become Lean structures with the same field names; fixed-size C
  arrays become `List`s of the corresponding length; in-place mutation becomes
  explicit state passing.
* The tagged union `Message.payload` is modelled as a sum type; the handlers
  below are applied to type-consistent messages (the only ones the system
  builds).  A `memset(0)` message is the `positionUpdate` variant with all
  fields zero, matching the byte-level zero initialisation.
-/

/-- ComponentId enum from include/common.h. -/
inductive ComponentId where
  | flightController
  | autopilot
  | gps
  | ins
  | landingRadio
  | satCom
deriving DecidableEq, Repr

/-- MessageType enum from include/messages.h. -/
inductive MessageType where
  | positionUpdate
  | stateRequest
  | stateResponse
  | autopilotCommand
  | systemStatus
deriving DecidableEq, Repr

/-- Position struct from include/common.h. -/
structure Position where
  latitude : ℚ
  longitude : ℚ
  altitude : ℚ
deriving DecidableEq, Repr

/-- FlightState struct from include/common.h. -/
structure FlightState where
  position : Position
  heading : ℚ
  speed : ℚ
  vertical_speed : ℚ
  timestamp : Int
deriving DecidableEq, Repr

/-- nav_data sub-struct of ExtendedFlightState (include/flight_state.h). -/
structure NavData where
  gps_valid : Bool
  ins_valid : Bool
  radio_valid : Bool
  gps_position : Position
  ins_position : Position
  radio_position : Position
deriving DecidableEq, Repr

/-- parameters sub-struct of ExtendedFlightState. -/
structure AircraftParameters where
  pitch : ℚ
  roll : ℚ
  yaw : ℚ
  thrust : ℚ
deriving DecidableEq, Repr

/-- autopilot sub-struct of ExtendedFlightState. -/
structure AutopilotTargets where
  enabled : Bool
  target_altitude : ℚ
  target_heading : ℚ
  target_speed : ℚ
deriving DecidableEq, Repr

/-- system_status sub-struct of ExtendedFlightState. -/
structure SystemStatus where
  gps_connected : Bool
  ins_operational : Bool
  landing_radio_connected : Bool
  sat_com_connected : Bool
  last_update_time : Int
deriving DecidableEq, Repr

/-- ExtendedFlightState struct from include/flight_state.h. -/
structure ExtendedFlightState where
  basic : FlightState
  nav_data : NavData
  parameters : AircraftParameters
  autopilot : AutopilotTargets
  system_status : SystemStatus
deriving DecidableEq, Repr

/-- MessageHeader struct from include/messages.h. -/
structure MessageHeader where
  type : MessageType
  sender : ComponentId
  receiver : ComponentId
  timestamp : Int
  message_size : Int
deriving DecidableEq, Repr

/-- PositionUpdateMsg payload struct. -/
structure PositionUpdateMsg where
  position : Position
deriving DecidableEq, Repr

/-- StateResponseMsg payload struct. -/
structure StateResponseMsg where
  state : FlightState
deriving DecidableEq, Repr

/-- AutopilotCommandMsg payload struct. -/
structure AutopilotCommandMsg where
  target_heading : ℚ
  target_speed : ℚ
  target_altitude : ℚ
deriving DecidableEq, Repr

/-- SystemStatusMsg payload struct. -/
structure SystemStatusMsg where
  component_active : Bool
deriving DecidableEq, Repr

/-- Discriminated payload union of Message (include/messages.h). -/
inductive MessagePayload where
  | positionUpdate (p : PositionUpdateMsg)
  | stateResponse (s : StateResponseMsg)
  | autopilotCommand (c : AutopilotCommandMsg)
  | systemStatus (s : SystemStatusMsg)
deriving DecidableEq, Repr

/-- Message struct: header plus payload union. -/
structure Message where
  header : MessageHeader
  payload : MessagePayload
deriving DecidableEq, Repr

/-- a `Message msg = {0}` zero initialisation: every enum is its 0 value and
every number 0; the zeroed union read as its first member is a zero
PositionUpdateMsg. -/
def zeroMessage : Message :=
  { header := { type := MessageType.positionUpdate
                sender := ComponentId.flightController
                receiver := ComponentId.flightController
                timestamp := 0
                message_size := 0 }
    payload := MessagePayload.positionUpdate { position := { latitude := 0, longitude := 0, altitude := 0 } } }

/-! ## flight_state.c -/

/-- flight_state_get_best_position from src/core/flight_state.c:128-149
(non-NULL state branch): priority GPS > INS > radio, else the current
basic position. -/
def flight_state_get_best_position (state : ExtendedFlightState) : Position :=
  if state.nav_data.gps_valid then state.nav_data.gps_position
  else if state.nav_data.ins_valid then state.nav_data.ins_position
  else if state.nav_data.radio_valid then state.nav_data.radio_position
  else state.basic.position

/-- flight_state_update_position from src/core/flight_state.c:30-60.  The
timestamps are written BEFORE the source switch, so an unrecognised source
still refreshes them; only recognised sources touch a nav slot and recompute
`basic.position`. -/
def flight_state_update_position (state : ExtendedFlightState) (pos : Position)
    (source : ComponentId) (now : Int) : ExtendedFlightState :=
  let state1 : ExtendedFlightState :=
    { state with
      basic := { state.basic with timestamp := now }
      system_status := { state.system_status with last_update_time := now } }
  match source with
  | ComponentId.gps =>
      let state2 := { state1 with nav_data := { state1.nav_data with gps_valid := true, gps_position := pos } }
      { state2 with basic := { state2.basic with position := flight_state_get_best_position state2 } }
  | ComponentId.ins =>
      let state2 := { state1 with nav_data := { state1.nav_data with ins_valid := true, ins_position := pos } }
      { state2 with basic := { state2.basic with position := flight_state_get_best_position state2 } }
  | ComponentId.landingRadio =>
      let state2 := { state1 with nav_data := { state1.nav_data with radio_valid := true, radio_position := pos } }
      { state2 with basic := { state2.basic with position := flight_state_get_best_position state2 } }
  | _ => state1

/-- flight_state_update_system_status from src/core/flight_state.c:85-126.
The switch runs FIRST here: an unrecognised component returns with the state
completely unchanged; recognised components update their flag, invalidate the
nav slot on disconnect, refresh the timestamps and recompute
`basic.position`. -/
def flight_state_update_system_status (state : ExtendedFlightState)
    (component : ComponentId) (connected : Bool) (now : Int) : ExtendedFlightState :=
  let finish : ExtendedFlightState → ExtendedFlightState := fun st =>
    let st2 : ExtendedFlightState :=
      { st with
        basic := { st.basic with timestamp := now }
        system_status := { st.system_status with last_update_time := now } }
    { st2 with basic := { st2.basic with position := flight_state_get_best_position st2 } }
  match component with
  | ComponentId.gps =>
      finish { state with
        nav_data := { state.nav_data with gps_valid := if connected then state.nav_data.gps_valid else false }
        system_status := { state.system_status with gps_connected := connected } }
  | ComponentId.ins =>
      finish { state with
        nav_data := { state.nav_data with ins_valid := if connected then state.nav_data.ins_valid else false }
        system_status := { state.system_status with ins_operational := connected } }
  | ComponentId.landingRadio =>
      finish { state with
        nav_data := { state.nav_data with radio_valid := if connected then state.nav_data.radio_valid else false }
        system_status := { state.system_status with landing_radio_connected := connected } }
  | ComponentId.satCom =>
      finish { state with
        system_status := { state.system_status with sat_com_connected := connected } }
  | _ => state

/-! ## flight_controller.c message dispatch (state effect) -/

/-- ErrorCode enum from include/common.h. -/
inductive ErrorCode where
  | success
  | errorGeneral
  | errorCommunication
  | errorInvalidData
deriving DecidableEq, Repr

/-- handle_autopilot_command from src/core/flight_controller.c:159-167
(flight_state_update_autopilot inlined from src/core/flight_state.c:74-83). -/
def handle_autopilot_command (state : ExtendedFlightState) (cmd : AutopilotCommandMsg)
    (now : Int) : ExtendedFlightState :=
  { state with
    autopilot := { state.autopilot with
      target_altitude := cmd.target_altitude
      target_heading := cmd.target_heading
      target_speed := cmd.target_speed }
    basic := { state.basic with timestamp := now }
    system_status := { state.system_status with last_update_time := now } }

/-- the state effect of one iteration of the dispatch switch in
flight_controller_process_messages, src/core/flight_controller.c:174-205.
Publishing of STATE_RESPONSE messages is a bus effect, modelled separately;
this function captures what happens to `fc->state`.  Note the
MSG_SYSTEM_STATUS case at lines 196-200: the code passes the literal `true`
as the connected flag and never reads the message's `component_active`
payload. -/
def flight_controller_dispatch (state : ExtendedFlightState) (msg : Message)
    (now : Int) : ExtendedFlightState :=
  match msg.header.type, msg.payload with
  | MessageType.positionUpdate, MessagePayload.positionUpdate p =>
      flight_state_update_position state p.position msg.header.sender now
  | MessageType.stateRequest, _ => state
  | MessageType.autopilotCommand, MessagePayload.autopilotCommand c =>
      handle_autopilot_command state c now
  | MessageType.systemStatus, _ =>
      flight_state_update_system_status state msg.header.sender true now
  | MessageType.stateResponse, _ => state
  | _, _ => state

/-! ## autopilot.c -/

/-- AutopilotConfig struct from include/autopilot.h; the three PID gain
arrays are (Kp, Ki, Kd) triples. -/
structure AutopilotConfig where
  target_latitude : ℚ
  target_longitude : ℚ
  target_altitude : ℚ
  target_speed : ℚ
  target_heading : ℚ
  max_climb_rate : ℚ
  max_descent_rate : ℚ
  max_bank_angle : ℚ
  max_pitch_angle : ℚ
  max_speed : ℚ
  min_speed : ℚ
  max_heading_rate : ℚ
  heading_pid : ℚ × ℚ × ℚ
  altitude_pid : ℚ × ℚ × ℚ
  speed_pid : ℚ × ℚ × ℚ
deriving DecidableEq, Repr

/-- pid_state sub-struct of struct Autopilot (src/core/autopilot.c:45-55).
The three `*_error` fields exist in the struct but are never read or written
by the code; they are carried unchanged. -/
structure PidState where
  heading_error : ℚ
  heading_integral : ℚ
  heading_last_error : ℚ
  altitude_error : ℚ
  altitude_integral : ℚ
  altitude_last_error : ℚ
  speed_error : ℚ
  speed_integral : ℚ
  speed_last_error : ℚ
deriving DecidableEq, Repr

/-- struct Autopilot from src/core/autopilot.c:37-56, minus the bus pointer
(the bus is passed separately). -/
structure Autopilot where
  config : AutopilotConfig
  current_state : FlightState
  state_valid : Bool
  last_state_request : Int
  pid_state : PidState
deriving DecidableEq, Repr

/-- dt = UPDATE_INTERVAL_MS / 1000.0 with UPDATE_INTERVAL_MS = 100
(src/core/autopilot.c:96). -/
def pidDt : ℚ := 100 / 1000

/-- heading error normalised into [-180, 180] by the two sequential ifs at
src/core/autopilot.c:99-102. -/
def pidHeadingError (cfg : AutopilotConfig) (st : FlightState) : ℚ :=
  let heading_error := cfg.target_heading - st.heading
  let heading_error := if heading_error > 180 then heading_error - 360 else heading_error
  if heading_error < -180 then heading_error + 360 else heading_error

/-- raw then rate-limited heading PID output, src/core/autopilot.c:104-113:
`fmax(-max_heading_rate, fmin(max_heading_rate, raw))`. -/
def pidHeadingOutput (cfg : AutopilotConfig) (pid : PidState) (st : FlightState) : ℚ :=
  let heading_error := pidHeadingError cfg st
  let heading_integral := pid.heading_integral + heading_error * pidDt
  let heading_derivative := (heading_error - pid.heading_last_error) / pidDt
  let heading_output := cfg.heading_pid.1 * heading_error +
    cfg.heading_pid.2.1 * heading_integral +
    cfg.heading_pid.2.2 * heading_derivative
  max (-cfg.max_heading_rate) (min cfg.max_heading_rate heading_output)

/-- raw then vertical-speed-limited altitude PID output,
src/core/autopilot.c:118-131: positive outputs clamped to max_climb_rate,
non-positive outputs clamped to -max_descent_rate. -/
def pidAltitudeOutput (cfg : AutopilotConfig) (pid : PidState) (st : FlightState) : ℚ :=
  let altitude_error := cfg.target_altitude - st.position.altitude
  let altitude_integral := pid.altitude_integral + altitude_error * pidDt
  let altitude_derivative := (altitude_error - pid.altitude_last_error) / pidDt
  let altitude_output := cfg.altitude_pid.1 * altitude_error +
    cfg.altitude_pid.2.1 * altitude_integral +
    cfg.altitude_pid.2.2 * altitude_derivative
  if altitude_output > 0 then min altitude_output cfg.max_climb_rate
  else max altitude_output (-cfg.max_descent_rate)

/-- speed PID output after envelope clamping, src/core/autopilot.c:136-147:
`fmax(min_speed, fmin(max_speed, current + raw)) - current`. -/
def pidSpeedOutput (cfg : AutopilotConfig) (pid : PidState) (st : FlightState) : ℚ :=
  let speed_error := cfg.target_speed - st.speed
  let speed_integral := pid.speed_integral + speed_error * pidDt
  let speed_derivative := (speed_error - pid.speed_last_error) / pidDt
  let speed_output := cfg.speed_pid.1 * speed_error +
    cfg.speed_pid.2.1 * speed_integral +
    cfg.speed_pid.2.2 * speed_derivative
  max cfg.min_speed (min cfg.max_speed (st.speed + speed_output)) - st.speed

/-- the `while (new_heading >= 360.0) new_heading -= 360.0;` loop at
src/core/autopilot.c:160. -/
def headingSubLoop (x : ℚ) : ℚ :=
  if 360 ≤ x then headingSubLoop (x - 360) else x
termination_by (⌊x / 360⌋).toNat
decreasing_by
  have h360 : (0:ℚ) < 360 := by norm_num
  have h1 : (1:ℚ) ≤ x / 360 := (le_div_iff₀ h360).mpr (by linarith)
  have hfl : 1 ≤ ⌊x / 360⌋ := by
    exact_mod_cast Int.le_floor.mpr (by exact_mod_cast h1)
  have heq : ⌊(x - 360) / 360⌋ = ⌊x / 360⌋ - 1 := by
    have : (x - 360) / 360 = x / 360 - 1 := by ring
    rw [this, Int.floor_sub_one]
  simp only [heq]
  omega

/-- the `while (new_heading < 0.0) new_heading += 360.0;` loop at
src/core/autopilot.c:161. -/
def headingAddLoop (x : ℚ) : ℚ :=
  if x < 0 then headingAddLoop (x + 360) else x
termination_by (-⌊x / 360⌋).toNat
decreasing_by
  have h360 : (0:ℚ) < 360 := by norm_num
  have h1 : x / 360 < 0 := div_neg_of_neg_of_pos (by linarith) h360
  have hfl : ⌊x / 360⌋ ≤ -1 := by
    have h0 : ⌊x / 360⌋ < 0 := Int.floor_lt.mpr (by exact_mod_cast h1)
    omega
  have heq : ⌊(x + 360) / 360⌋ = ⌊x / 360⌋ + 1 := by
    have : (x + 360) / 360 = x / 360 + 1 := by ring
    rw [this, Int.floor_add_one]
  simp only [heq]
  omega

/-- normalisation of the commanded heading into [0, 360) by the two while
loops at src/core/autopilot.c:159-161. -/
def normalizeHeading (x : ℚ) : ℚ :=
  headingAddLoop (headingSubLoop x)

/-- update_pid_controls from src/core/autopilot.c:95-168: returns the updated
pid_state together with the AUTOPILOT_COMMAND payload handed to
send_control_command. -/
def update_pid_controls (ap : Autopilot) : PidState × AutopilotCommandMsg :=
  let heading_error := pidHeadingError ap.config ap.current_state
  let heading_output := pidHeadingOutput ap.config ap.pid_state ap.current_state
  let altitude_error := ap.config.target_altitude - ap.current_state.position.altitude
  let altitude_output := pidAltitudeOutput ap.config ap.pid_state ap.current_state
  let speed_error := ap.config.target_speed - ap.current_state.speed
  let speed_output := pidSpeedOutput ap.config ap.pid_state ap.current_state
  let pid2 : PidState :=
    { ap.pid_state with
      heading_integral := ap.pid_state.heading_integral + heading_error * pidDt
      heading_last_error := heading_error
      altitude_integral := ap.pid_state.altitude_integral + altitude_error * pidDt
      altitude_last_error := altitude_error
      speed_integral := ap.pid_state.speed_integral + speed_error * pidDt
      speed_last_error := speed_error }
  let new_heading := normalizeHeading (ap.current_state.heading + heading_output)
  let new_altitude := ap.current_state.position.altitude + altitude_output
  let new_speed := ap.current_state.speed + speed_output
  (pid2, { target_heading := new_heading, target_speed := new_speed, target_altitude := new_altitude })

/-! ## bus.c

The bus control block (`struct Bus`) also holds a semaphore handle, a
ref_count and the shm id; the mutex serialises every operation, so the
sequential model below is the per-operation semantics, and the OS-level
fields play no part in the queue claims. -/

/-- MAX_BUS_MESSAGES from include/bus.h. -/
def MAX_BUS_MESSAGES : Int := 100

/-- MAX_SUBSCRIBERS from include/bus.h. -/
def MAX_SUBSCRIBERS : Nat := 10

/-- MESSAGE_TIMEOUT_S from src/core/bus.c. -/
def MESSAGE_TIMEOUT_S : Int := 5

/-- Subscription entry from src/core/bus.c:18-22. -/
structure Subscription where
  subscriber : ComponentId
  msg_type : MessageType
  active : Bool
deriving DecidableEq, Repr

/-- Circular message queue from src/core/bus.c:25-31; the two C arrays of
length MAX_BUS_MESSAGES become lists of that length. -/
structure MessageQueue where
  messages : List Message
  timestamps : List Int
  read_idx : Int
  write_idx : Int
  count : Int
deriving DecidableEq, Repr

/-- the queue and subscription table of struct Bus (src/core/bus.c:34-40). -/
structure Bus where
  queue : MessageQueue
  subscriptions : List Subscription
deriving DecidableEq, Repr

/-- bus_init (src/core/bus.c:53-85): the control block is memset to zero. -/
def bus_init : Bus :=
  { queue := { messages := List.replicate 100 zeroMessage
               timestamps := List.replicate 100 0
               read_idx := 0
               write_idx := 0
               count := 0 }
    subscriptions := List.replicate MAX_SUBSCRIBERS
      { subscriber := ComponentId.flightController
        msg_type := MessageType.positionUpdate
        active := false } }

/-- the first-free-slot search of bus_subscribe (src/core/bus.c:151-160). -/
def subscribeFirstFree (subs : List Subscription) (subscriber : ComponentId)
    (msg_type : MessageType) : Option (List Subscription) :=
  match subs with
  | [] => none
  | s :: rest =>
      if !s.active then
        some ({ subscriber := subscriber, msg_type := msg_type, active := true } :: rest)
      else
        (subscribeFirstFree rest subscriber msg_type).map (s :: ·)

/-- bus_subscribe (src/core/bus.c:139-165). -/
def bus_subscribe (bus : Bus) (subscriber : ComponentId) (msg_type : MessageType) :
    ErrorCode × Bus :=
  match subscribeFirstFree bus.subscriptions subscriber msg_type with
  | some subs => (ErrorCode.success, { bus with subscriptions := subs })
  | none => (ErrorCode.errorGeneral, bus)

/-- bus_publish (src/core/bus.c:167-192).  Note that the code copies the
message and advances write_idx and count but never writes
`queue.timestamps`. -/
def bus_publish (bus : Bus) (message : Message) : ErrorCode × Bus :=
  if bus.queue.count ≥ MAX_BUS_MESSAGES then
    (ErrorCode.errorCommunication, bus)
  else
    (ErrorCode.success,
     { bus with queue :=
        { bus.queue with
          messages := bus.queue.messages.set bus.queue.write_idx.toNat message
          write_idx := (bus.queue.write_idx + 1) % MAX_BUS_MESSAGES
          count := bus.queue.count + 1 } })

/-- the while loop of prune_old_messages (src/core/bus.c:123-131); the fuel
is the entry value of count, which bounds the number of iterations because
every iteration decrements count. -/
def pruneLoop (timestamps : List Int) (now : Int) (read_idx count : Int) :
    Nat → Int × Int
  | 0 => (read_idx, count)
  | Nat.succ fuel =>
      if 0 < count ∧ now - timestamps.getD read_idx.toNat 0 > MESSAGE_TIMEOUT_S then
        pruneLoop timestamps now ((read_idx + 1) % MAX_BUS_MESSAGES) (count - 1) fuel
      else
        (read_idx, count)

/-- prune_old_messages (src/core/bus.c:116-137). -/
def prune_old_messages (q : MessageQueue) (now : Int) : MessageQueue :=
  if q.count = 0 then q
  else
    let rc := pruneLoop q.timestamps now q.read_idx q.count q.count.toNat
    { q with read_idx := rc.1, count := rc.2 }

/-- the subscription-table scan of bus_read_message (src/core/bus.c:221-229):
true iff some active entry pairs this subscriber with this message type. -/
def subscriptionMatches (subs : List Subscription) (subscriber : ComponentId)
    (msg_type : MessageType) : Bool :=
  subs.any fun s => s.active && s.subscriber == subscriber && s.msg_type == msg_type

/-- the ring scan of bus_read_message (src/core/bus.c:213-235): starting at
`current`, up to `count` slots are inspected and the index of the first
message whose type matches a subscription of this subscriber is returned.
The fuel is the entry value of count (`checked` counts up to it). -/
def scanForMatch (msgs : List Message) (subs : List Subscription)
    (subscriber : ComponentId) (current : Int) : Nat → Option Int
  | 0 => none
  | Nat.succ fuel =>
      if subscriptionMatches subs subscriber
          ((msgs.getD current.toNat zeroMessage).header.type) then
        some current
      else
        scanForMatch msgs subs subscriber ((current + 1) % MAX_BUS_MESSAGES) fuel

/-- the queue bus_read_message actually scans (src/core/bus.c:203-205):
pruned when more than half full, untouched otherwise. -/
def effectiveQueue (bus : Bus) (now : Int) : MessageQueue :=
  if bus.queue.count > MAX_BUS_MESSAGES / 2 then prune_old_messages bus.queue now
  else bus.queue

/-- bus_read_message (src/core/bus.c:194-245): prune when more than half
full, then scan; on a match the message is copied out and the queue is
compacted by `read_idx = matched + 1 (mod capacity)` and a single decrement
of count. -/
def bus_read_message (bus : Bus) (subscriber : ComponentId) (now : Int) :
    Option Message × Bus :=
  let q1 := effectiveQueue bus now
  if q1.count = 0 then
    (none, { bus with queue := q1 })
  else
    match scanForMatch q1.messages bus.subscriptions subscriber q1.read_idx q1.count.toNat with
    | none => (none, { bus with queue := q1 })
    | some current =>
        (some (q1.messages.getD current.toNat zeroMessage),
         { bus with queue :=
            { q1 with read_idx := (current + 1) % MAX_BUS_MESSAGES
                      count := q1.count - 1 } })

/-! ## bus operation traces -/

/-- one bus API call, for reasoning about sequences of operations. -/
inductive BusOp where
  | subscribe (subscriber : ComponentId) (msg_type : MessageType)
  | publish (m : Message)
  | read (subscriber : ComponentId) (now : Int)
deriving DecidableEq, Repr

/-- state effect of one bus operation. -/
def busStep (bus : Bus) : BusOp → Bus
  | BusOp.subscribe s t => (bus_subscribe bus s t).2
  | BusOp.publish m => (bus_publish bus m).2
  | BusOp.read s now => (bus_read_message bus s now).2

/-- bus state after running a sequence of operations from a fresh bus. -/
def busRun (ops : List BusOp) : Bus := ops.foldl busStep bus_init

/-- the messages accepted by publish (`.1`) and the messages returned by
read_message (`.2`) along a run from `bus`. -/
def busTraceAux (bus : Bus) : List BusOp → List Message × List Message
  | [] => ([], [])
  | op :: rest =>
      let acc := busTraceAux (busStep bus op) rest
      match op with
      | BusOp.publish m =>
          if (bus_publish bus m).1 = ErrorCode.success then (m :: acc.1, acc.2) else acc
      | BusOp.read s now =>
          match (bus_read_message bus s now).1 with
          | some m => (acc.1, m :: acc.2)
          | none => acc
      | _ => acc

/-- messages accepted by publish over a run from a fresh bus. -/
def busAccepted (ops : List BusOp) : List Message := (busTraceAux bus_init ops).1

/-- messages returned by read_message over a run from a fresh bus. -/
def busDelivered (ops : List BusOp) : List Message := (busTraceAux bus_init ops).2

/-- a read is "clean" when pruning removes nothing and the scan, if it finds
a message at all, finds it at read_idx (no messages are skipped over). -/
def readCleanB (bus : Bus) (subscriber : ComponentId) (now : Int) : Bool :=
  (effectiveQueue bus now == bus.queue) &&
  (match scanForMatch bus.queue.messages bus.subscriptions subscriber
      bus.queue.read_idx bus.queue.count.toNat with
   | some c => c == bus.queue.read_idx
   | none => true)

/-- a run is clean when every read in it is clean at its pre-state. -/
def cleanFromB (bus : Bus) : List BusOp → Bool
  | [] => true
  | op :: rest =>
      (match op with
       | BusOp.read s now => readCleanB bus s now
       | _ => true) && cleanFromB (busStep bus op) rest

/-- a read is "skip-free" when the scan over the queue it actually inspects
(the effective, possibly pruned queue) either finds nothing or finds its
match right at that queue's read_idx: no message is skipped over.  Pruning
itself is allowed. -/
def readSkipFreeB (bus : Bus) (subscriber : ComponentId) (now : Int) : Bool :=
  match scanForMatch (effectiveQueue bus now).messages bus.subscriptions subscriber
      (effectiveQueue bus now).read_idx (effectiveQueue bus now).count.toNat with
  | some c => c == (effectiveQueue bus now).read_idx
  | none => true

/-- a run is skip-free when every read in it is skip-free at its
pre-state. -/
def skipFreeFromB (bus : Bus) : List BusOp → Bool
  | [] => true
  | op :: rest =>
      (match op with
       | BusOp.read s now => readSkipFreeB bus s now
       | _ => true) && skipFreeFromB (busStep bus op) rest

/-- structural bounds of the ring buffer. -/
def BusBounds (bus : Bus) : Prop :=
  0 ≤ bus.queue.count ∧ bus.queue.count ≤ MAX_BUS_MESSAGES ∧
  0 ≤ bus.queue.read_idx ∧ bus.queue.read_idx < MAX_BUS_MESSAGES ∧
  0 ≤ bus.queue.write_idx ∧ bus.queue.write_idx < MAX_BUS_MESSAGES ∧
  bus.queue.messages.length = 100 ∧ bus.queue.timestamps.length = 100

/-- the live window of the ring: the `count` slots starting at read_idx. -/
def queueWindow (q : MessageQueue) : List Message :=
  (List.range q.count.toNat).map fun (i : Nat) =>
    q.messages.getD ((q.read_idx + (i : Int)) % MAX_BUS_MESSAGES).toNat zeroMessage

/-- refinement relation: the ring buffer represents the pending message list
`pending` (published, not yet delivered, not dropped). -/
def BusAbs (bus : Bus) (pending : List Message) : Prop :=
  BusBounds bus ∧
  bus.queue.count = pending.length ∧
  queueWindow bus.queue = pending ∧
  bus.queue.write_idx = (bus.queue.read_idx + bus.queue.count) % MAX_BUS_MESSAGES

/-! ## autopilot.c state request -/

/-- STATE_REQUEST_INTERVAL_S from src/core/autopilot.c:12. -/
def STATE_REQUEST_INTERVAL_S : Int := 1

/-- the MSG_STATE_REQUEST message built by request_state
(src/core/autopilot.c:59-63): `Message msg = {0}` then the four header
fields; message_size stays 0. -/
def stateRequestMessage (now : Int) : Message :=
  { zeroMessage with header :=
      { type := MessageType.stateRequest
        sender := ComponentId.autopilot
        receiver := ComponentId.flightController
        timestamp := now
        message_size := 0 } }

/-- request_state (src/core/autopilot.c:58-72): publish is attempted and its
result only logged; line 71 stores the message timestamp into
last_state_request unconditionally, on the success and the failure path
alike. -/
def request_state (ap : Autopilot) (bus : Bus) (now : Int) : Autopilot × Bus :=
  let msg := stateRequestMessage now
  let pb := bus_publish bus msg
  ({ ap with last_state_request := msg.header.timestamp }, pb.2)

/-- the request step of autopilot_process (src/core/autopilot.c:339-343):
request the state iff at least STATE_REQUEST_INTERVAL_S has elapsed. -/
def autopilot_request_phase (ap : Autopilot) (bus : Bus) (now : Int) :
    Autopilot × Bus :=
  if now - ap.last_state_request ≥ STATE_REQUEST_INTERVAL_S then
    request_state ap bus now
  else
    (ap, bus)

/-! ## concrete instances used by witnesses and counterexamples -/

/-- a concrete extended state: GPS slot valid and connected, the other slots
empty. -/
def exampleStateGps : ExtendedFlightState :=
  { basic := { position := { latitude := 37, longitude := -122, altitude := 9000 }
               heading := 90, speed := 200, vertical_speed := 0, timestamp := 100 }
    nav_data := { gps_valid := true, ins_valid := false, radio_valid := false
                  gps_position := { latitude := 37, longitude := -122, altitude := 9000 }
                  ins_position := { latitude := 0, longitude := 0, altitude := 0 }
                  radio_position := { latitude := 0, longitude := 0, altitude := 0 } }
    parameters := { pitch := 0, roll := 0, yaw := 0, thrust := 50 }
    autopilot := { enabled := false, target_altitude := 10000, target_heading := 0, target_speed := 250 }
    system_status := { gps_connected := true, ins_operational := false
                       landing_radio_connected := false, sat_com_connected := false
                       last_update_time := 100 } }

/-- a SYSTEM_STATUS message from the GPS receiver reporting
`component_active = false` (what gps_receiver.c:284 publishes on
disconnection). -/
def gpsDisconnectMsg : Message :=
  { header := { type := MessageType.systemStatus
                sender := ComponentId.gps
                receiver := ComponentId.flightController
                timestamp := 101
                message_size := 0 }
    payload := MessagePayload.systemStatus { component_active := false } }

/-- the default AutopilotConfig of autopilot_load_config
(src/core/autopilot.c:213-234) with the heading gains of the wrap scenario
(Kp=1, Ki=0, Kd=0) and target_heading 10. -/
def headingWrapConfig : AutopilotConfig :=
  { target_latitude := 377749 / 10000
    target_longitude := -1224194 / 10000
    target_altitude := 10000
    target_speed := 250
    target_heading := 10
    max_climb_rate := 2000
    max_descent_rate := 1500
    max_bank_angle := 25
    max_pitch_angle := 15
    max_speed := 350
    min_speed := 120
    max_heading_rate := 3
    heading_pid := (1, 0, 0)
    altitude_pid := (1/2, 1/20, 1/10)
    speed_pid := (3/10, 1/50, 1/20) }

/-- pid_state after the autopilot's `memset(&ap->pid_state, 0, ...)`. -/
def zeroPidState : PidState :=
  { heading_error := 0, heading_integral := 0, heading_last_error := 0
    altitude_error := 0, altitude_integral := 0, altitude_last_error := 0
    speed_error := 0, speed_integral := 0, speed_last_error := 0 }

/-- flight state of the wrap scenario: current heading 350. -/
def headingWrapState1 : FlightState :=
  { position := { latitude := 37, longitude := -122, altitude := 10000 }
    heading := 350, speed := 250, vertical_speed := 0, timestamp := 0 }

/-- autopilot at the first tick of the wrap scenario. -/
def headingWrapAp1 : Autopilot :=
  { config := headingWrapConfig
    current_state := headingWrapState1
    state_valid := true
    last_state_request := 0
    pid_state := zeroPidState }

/-- autopilot at the second tick: heading 353, pid state carried over from
the first tick. -/
def headingWrapAp2 : Autopilot :=
  { headingWrapAp1 with
    current_state := { headingWrapState1 with heading := 353 }
    pid_state := (update_pid_controls headingWrapAp1).1 }

/-- a message with a type (AUTOPILOT_COMMAND) that no subscriber in the
counterexample traces subscribes to. -/
def fillerMsg : Message :=
  { header := { type := MessageType.autopilotCommand
                sender := ComponentId.autopilot
                receiver := ComponentId.flightController
                timestamp := 0
                message_size := 0 }
    payload := MessagePayload.autopilotCommand
      { target_heading := 1, target_speed := 2, target_altitude := 3 } }

/-- a STATE_RESPONSE message, the one the counterexample subscriber is
subscribed to. -/
def respMsg : Message :=
  { header := { type := MessageType.stateResponse
                sender := ComponentId.flightController
                receiver := ComponentId.autopilot
                timestamp := 0
                message_size := 0 }
    payload := MessagePayload.stateResponse
      { state := { position := { latitude := 5, longitude := 6, altitude := 7 }
                   heading := 8, speed := 9, vertical_speed := 10, timestamp := 11 } } }

/-- subscribe, two skipped messages, one matching message, and a read that
skips over the first two: afterwards read_idx = write_idx = 3 while
count = 2. -/
def skipTraceOps : List BusOp :=
  [BusOp.subscribe ComponentId.autopilot MessageType.stateResponse,
   BusOp.publish fillerMsg, BusOp.publish fillerMsg, BusOp.publish respMsg,
   BusOp.read ComponentId.autopilot 0]

/-- trace on which bus_read_message returns the same published message
twice: one skipped message inflates count, 99 further publishes wrap the
write index past the stale copy of `respMsg`, and a second read reaches
it again. -/
def redeliveryOps : List BusOp :=
  [BusOp.subscribe ComponentId.autopilot MessageType.stateResponse,
   BusOp.publish fillerMsg, BusOp.publish respMsg,
   BusOp.read ComponentId.autopilot 0] ++
  List.replicate 99 (BusOp.publish fillerMsg) ++
  [BusOp.read ComponentId.autopilot 0]

/-- a clean trace: subscribe, publish one matching message, read it, read
again (empty). -/
def cleanTraceOps : List BusOp :=
  [BusOp.subscribe ComponentId.autopilot MessageType.stateResponse,
   BusOp.publish respMsg,
   BusOp.read ComponentId.autopilot 0,
   BusOp.read ComponentId.autopilot 0]

/-- a bus whose queue has been filled by 100 subscriber-less publishes. -/
def fullBus : Bus := busRun (List.replicate 100 (BusOp.publish fillerMsg))

/-! # Theorems -/

/-! ## C9 -/

/-- C9: a position update whose source is not GPS, INS or LANDING_RADIO
leaves the three nav slots and basic.position unchanged, but still
overwrites basic.timestamp and system_status.last_update_time with the
current time before rejecting the source. -/
theorem rejected_source_updates_only_timestamps
    (st : ExtendedFlightState) (pos : Position) (src : ComponentId) (now : Int)
    (h1 : src ≠ ComponentId.gps) (h2 : src ≠ ComponentId.ins)
    (h3 : src ≠ ComponentId.landingRadio) :
    flight_state_update_position st pos src now =
      { st with
        basic := { st.basic with timestamp := now }
        system_status := { st.system_status with last_update_time := now } } ∧
    (flight_state_update_position st pos src now).nav_data = st.nav_data ∧
    (flight_state_update_position st pos src now).basic.position = st.basic.position ∧
    (flight_state_update_position st pos src now).basic.timestamp = now ∧
    (flight_state_update_position st pos src now).system_status.last_update_time = now := by
  have hmain : flight_state_update_position st pos src now =
      { st with
        basic := { st.basic with timestamp := now }
        system_status := { st.system_status with last_update_time := now } } := by
    cases src <;> simp_all [flight_state_update_position]
  refine ⟨hmain, ?_, ?_, ?_, ?_⟩ <;> rw [hmain]

/-- witness for the C9 theorem at a concrete rejected source (AUTOPILOT). -/
theorem rejected_source_updates_only_timestamps_witness :
    (ComponentId.autopilot ≠ ComponentId.gps ∧
     ComponentId.autopilot ≠ ComponentId.ins ∧
     ComponentId.autopilot ≠ ComponentId.landingRadio) ∧
    ((flight_state_update_position exampleStateGps
        { latitude := 1, longitude := 2, altitude := 3 } ComponentId.autopilot 777).nav_data
      = exampleStateGps.nav_data ∧
     (flight_state_update_position exampleStateGps
        { latitude := 1, longitude := 2, altitude := 3 } ComponentId.autopilot 777).basic.position
      = exampleStateGps.basic.position ∧
     (flight_state_update_position exampleStateGps
        { latitude := 1, longitude := 2, altitude := 3 } ComponentId.autopilot 777).basic.timestamp
      = 777) :=
  ⟨⟨by decide, by decide, by decide⟩,
   (rejected_source_updates_only_timestamps exampleStateGps
      { latitude := 1, longitude := 2, altitude := 3 } ComponentId.autopilot 777
      (by decide) (by decide) (by decide)).2.1,
   (rejected_source_updates_only_timestamps exampleStateGps
      { latitude := 1, longitude := 2, altitude := 3 } ComponentId.autopilot 777
      (by decide) (by decide) (by decide)).2.2.1,
   (rejected_source_updates_only_timestamps exampleStateGps
      { latitude := 1, longitude := 2, altitude := 3 } ComponentId.autopilot 777
      (by decide) (by decide) (by decide)).2.2.2.1⟩

/-! ## C1 -/

/-- C1 (code bug evaluation): a SYSTEM_STATUS message from GPS whose payload
carries component_active = false is dispatched by the flight controller with
the hard-coded flag `true` (src/core/flight_controller.c:196-200): the state
afterwards has gps_connected = true and still-valid GPS nav data, while the
message payload says false.  The claim that the stored flag equals the
payload is therefore violated by the code. -/
theorem system_status_payload_ignored :
    gpsDisconnectMsg.payload
      = MessagePayload.systemStatus { component_active := false } ∧
    (flight_controller_dispatch exampleStateGps gpsDisconnectMsg 101).system_status.gps_connected
      = true ∧
    (flight_controller_dispatch exampleStateGps gpsDisconnectMsg 101).nav_data.gps_valid
      = true := by
  decide

/-! ## C2 -/

/-- C2 (code bug evaluation): a non-full publish returns success, copies the
message into the slot at write_idx, advances write_idx modulo the capacity
and increments count — but leaves `timestamps` entirely unchanged: bus.c
never writes the enqueue timestamp the spec (and prune_old_messages)
expects. -/
theorem publish_never_stamps_timestamps (bus : Bus) (m : Message)
    (h : bus.queue.count < MAX_BUS_MESSAGES) :
    (bus_publish bus m).1 = ErrorCode.success ∧
    (bus_publish bus m).2.queue.messages
      = bus.queue.messages.set bus.queue.write_idx.toNat m ∧
    (bus_publish bus m).2.queue.write_idx
      = (bus.queue.write_idx + 1) % MAX_BUS_MESSAGES ∧
    (bus_publish bus m).2.queue.count = bus.queue.count + 1 ∧
    (bus_publish bus m).2.queue.timestamps = bus.queue.timestamps := by
  have hg : ¬ (bus.queue.count ≥ MAX_BUS_MESSAGES) := not_le.mpr h
  simp [bus_publish, hg]

/-- witness for the C2 theorem: the first publish on a fresh bus leaves every
timestamp at its initial zero. -/
theorem publish_never_stamps_timestamps_witness :
    bus_init.queue.count < MAX_BUS_MESSAGES ∧
    (bus_publish bus_init fillerMsg).2.queue.timestamps = bus_init.queue.timestamps ∧
    (bus_publish bus_init fillerMsg).2.queue.timestamps.getD 0 0 = 0 :=
  ⟨by decide,
   (publish_never_stamps_timestamps bus_init fillerMsg (by decide)).2.2.2.2,
   by decide⟩

/-! ## C8 -/

/-- C8: publishing onto a bus whose queue already holds MAX_BUS_MESSAGES
messages returns the communication error (QueueFull) and returns the bus
unchanged: no slot is overwritten and count, read_idx and write_idx keep
their values. -/
theorem publish_on_full_queue_rejected (bus : Bus) (m : Message)
    (h : bus.queue.count = MAX_BUS_MESSAGES) :
    bus_publish bus m = (ErrorCode.errorCommunication, bus) := by
  simp [bus_publish, h]

set_option maxRecDepth 10000 in
/-- witness for the C8 theorem: after 100 subscriber-less publishes the queue
is full and the 101st publish fails without changing anything. -/
theorem publish_on_full_queue_rejected_witness :
    fullBus.queue.count = MAX_BUS_MESSAGES ∧
    bus_publish fullBus respMsg = (ErrorCode.errorCommunication, fullBus) :=
  ⟨by decide, publish_on_full_queue_rejected fullBus respMsg (by decide)⟩

/-! ## C10 -/

/-- C10: when at least STATE_REQUEST_INTERVAL_S has elapsed the tick calls
request_state, which stores the request timestamp into last_state_request
regardless of the publish outcome; on a full queue the publish fails with
the communication error yet the timestamp is still stored, so a later tick
within the interval does not retry. -/
theorem state_request_timestamp_set_even_on_failure
    (ap : Autopilot) (bus : Bus) (now : Int)
    (h : now - ap.last_state_request ≥ STATE_REQUEST_INTERVAL_S) :
    autopilot_request_phase ap bus now = request_state ap bus now ∧
    (request_state ap bus now).1.last_state_request = now ∧
    (bus.queue.count = MAX_BUS_MESSAGES →
      (bus_publish bus (stateRequestMessage now)).1 = ErrorCode.errorCommunication ∧
      (request_state ap bus now).2 = bus) ∧
    (∀ t : Int, t - now < STATE_REQUEST_INTERVAL_S →
      autopilot_request_phase (request_state ap bus now).1 (request_state ap bus now).2 t
        = ((request_state ap bus now).1, (request_state ap bus now).2)) := by
  refine ⟨by simp [autopilot_request_phase, h], by simp [request_state, stateRequestMessage], ?_, ?_⟩
  · intro hfull
    constructor
    · simp [bus_publish, hfull]
    · simp [request_state, bus_publish, hfull]
  · intro t ht
    have hlast : (request_state ap bus now).1.last_state_request = now := by
      simp [request_state, stateRequestMessage]
    have : ¬ (t - (request_state ap bus now).1.last_state_request ≥ STATE_REQUEST_INTERVAL_S) := by
      rw [hlast]; omega
    simp [autopilot_request_phase, this]

set_option maxRecDepth 10000 in
/-- witness for the C10 theorem: a due request against a full bus at time 5,
followed by a tick at time 5 that does not retry. -/
theorem state_request_timestamp_set_even_on_failure_witness :
    (5 : Int) - headingWrapAp1.last_state_request ≥ STATE_REQUEST_INTERVAL_S ∧
    (request_state headingWrapAp1 fullBus 5).1.last_state_request = 5 ∧
    (bus_publish fullBus (stateRequestMessage 5)).1 = ErrorCode.errorCommunication ∧
    autopilot_request_phase (request_state headingWrapAp1 fullBus 5).1
        (request_state headingWrapAp1 fullBus 5).2 5
      = ((request_state headingWrapAp1 fullBus 5).1, (request_state headingWrapAp1 fullBus 5).2) :=
  ⟨by decide,
   (state_request_timestamp_set_even_on_failure headingWrapAp1 fullBus 5 (by decide)).2.1,
   ((state_request_timestamp_set_even_on_failure headingWrapAp1 fullBus 5 (by decide)).2.2.1
      (by decide)).1,
   (state_request_timestamp_set_even_on_failure headingWrapAp1 fullBus 5 (by decide)).2.2.2
      5 (by decide)⟩

/-! ## C6 -/

/-- the speed output is an envelope clamp of some candidate value. -/
theorem pidSpeedOutput_shape (cfg : AutopilotConfig) (pid : PidState) (st : FlightState) :
    ∃ x, st.speed + pidSpeedOutput cfg pid st = max cfg.min_speed (min cfg.max_speed x) :=
  ⟨_, by unfold pidSpeedOutput; ring⟩

/-- the altitude output is a rate clamp of some raw value. -/
theorem pidAltitudeOutput_shape (cfg : AutopilotConfig) (pid : PidState) (st : FlightState) :
    ∃ x, pidAltitudeOutput cfg pid st
      = if x > 0 then min x cfg.max_climb_rate else max x (-cfg.max_descent_rate) :=
  ⟨_, rfl⟩

/-- the heading output is a symmetric clamp of some raw value. -/
theorem pidHeadingOutput_shape (cfg : AutopilotConfig) (pid : PidState) (st : FlightState) :
    ∃ x, pidHeadingOutput cfg pid st = max (-cfg.max_heading_rate) (min cfg.max_heading_rate x) :=
  ⟨_, rfl⟩

/-- C6: regardless of gains and accumulated integrals, the commanded speed
stays inside [min_speed, max_speed], the applied altitude delta inside
[-max_descent_rate, max_climb_rate] and the clamped heading output inside
[-max_heading_rate, max_heading_rate], for any configuration with
min_speed ≤ max_speed and non-negative rate limits. -/
theorem pid_outputs_respect_limits (ap : Autopilot)
    (hs : ap.config.min_speed ≤ ap.config.max_speed)
    (hh : 0 ≤ ap.config.max_heading_rate)
    (hc : 0 ≤ ap.config.max_climb_rate)
    (hd : 0 ≤ ap.config.max_descent_rate) :
    (ap.config.min_speed ≤ (update_pid_controls ap).2.target_speed ∧
     (update_pid_controls ap).2.target_speed ≤ ap.config.max_speed) ∧
    (-ap.config.max_descent_rate
        ≤ (update_pid_controls ap).2.target_altitude - ap.current_state.position.altitude ∧
     (update_pid_controls ap).2.target_altitude - ap.current_state.position.altitude
        ≤ ap.config.max_climb_rate) ∧
    |pidHeadingOutput ap.config ap.pid_state ap.current_state| ≤ ap.config.max_heading_rate := by
  refine ⟨?_, ?_, ?_⟩
  · have hspd : (update_pid_controls ap).2.target_speed
        = ap.current_state.speed + pidSpeedOutput ap.config ap.pid_state ap.current_state := by
      simp [update_pid_controls]
    obtain ⟨x, hx⟩ := pidSpeedOutput_shape ap.config ap.pid_state ap.current_state
    rw [hspd, hx]
    exact ⟨le_max_left _ _, max_le hs (min_le_left _ _)⟩
  · have halt : (update_pid_controls ap).2.target_altitude - ap.current_state.position.altitude
        = pidAltitudeOutput ap.config ap.pid_state ap.current_state := by
      simp [update_pid_controls]
    obtain ⟨x, hx⟩ := pidAltitudeOutput_shape ap.config ap.pid_state ap.current_state
    rw [halt, hx]
    split
    · rename_i hpos
      exact ⟨le_min (by linarith) (by linarith), min_le_right _ _⟩
    · rename_i hpos
      push_neg at hpos
      exact ⟨le_max_right _ _, max_le (le_trans hpos hc) (le_trans (neg_nonpos_of_nonneg hd) hc)⟩
  · obtain ⟨x, hx⟩ := pidHeadingOutput_shape ap.config ap.pid_state ap.current_state
    rw [hx, abs_le]
    exact ⟨le_max_left _ _, max_le (by linarith) (min_le_left _ _)⟩

/-- witness for the C6 theorem at the default configuration. -/
theorem pid_outputs_respect_limits_witness :
    (headingWrapAp1.config.min_speed ≤ headingWrapAp1.config.max_speed ∧
     0 ≤ headingWrapAp1.config.max_heading_rate ∧
     0 ≤ headingWrapAp1.config.max_climb_rate ∧
     0 ≤ headingWrapAp1.config.max_descent_rate) ∧
    (headingWrapAp1.config.min_speed ≤ (update_pid_controls headingWrapAp1).2.target_speed ∧
     (update_pid_controls headingWrapAp1).2.target_speed ≤ headingWrapAp1.config.max_speed) ∧
    |pidHeadingOutput headingWrapAp1.config headingWrapAp1.pid_state headingWrapAp1.current_state|
      ≤ headingWrapAp1.config.max_heading_rate :=
  ⟨⟨by decide, by decide, by decide, by decide⟩,
   (pid_outputs_respect_limits headingWrapAp1 (by decide) (by decide) (by decide) (by decide)).1,
   (pid_outputs_respect_limits headingWrapAp1 (by decide) (by decide) (by decide) (by decide)).2.2⟩

/-! ## C7 -/

/-- the subtract loop ends strictly below 360. -/
theorem headingSubLoop_lt (x : ℚ) : headingSubLoop x < 360 := by
  induction x using headingSubLoop.induct with
  | case1 x h ih => rw [headingSubLoop]; simp only [if_pos h]; exact ih
  | case2 x h => rw [headingSubLoop]; simp only [if_neg h]; exact lt_of_not_le h

/-- the subtract loop changes its argument by a multiple of 360. -/
theorem headingSubLoop_multiple (x : ℚ) : ∃ k : ℤ, headingSubLoop x = x - 360 * k := by
  induction x using headingSubLoop.induct with
  | case1 x h ih =>
      obtain ⟨k, hk⟩ := ih
      exact ⟨k + 1, by rw [headingSubLoop, if_pos h, hk]; push_cast; ring⟩
  | case2 x h => exact ⟨0, by rw [headingSubLoop, if_neg h]; push_cast; ring⟩

/-- the add loop ends at or above 0. -/
theorem headingAddLoop_nonneg (x : ℚ) : 0 ≤ headingAddLoop x := by
  induction x using headingAddLoop.induct with
  | case1 x h ih => rw [headingAddLoop]; simp only [if_pos h]; exact ih
  | case2 x h => rw [headingAddLoop]; simp only [if_neg h]; exact le_of_not_lt h

/-- the add loop keeps its argument below 360 when it starts below 360. -/
theorem headingAddLoop_lt (x : ℚ) (h360 : x < 360) : headingAddLoop x < 360 := by
  induction x using headingAddLoop.induct with
  | case1 x h ih => rw [headingAddLoop]; simp only [if_pos h]; exact ih (by linarith)
  | case2 x h => rw [headingAddLoop]; simp only [if_neg h]; exact h360

/-- the add loop changes its argument by a multiple of 360. -/
theorem headingAddLoop_multiple (x : ℚ) : ∃ k : ℤ, headingAddLoop x = x + 360 * k := by
  induction x using headingAddLoop.induct with
  | case1 x h ih =>
      obtain ⟨k, hk⟩ := ih
      exact ⟨k + 1, by rw [headingAddLoop, if_pos h, hk]; push_cast; ring⟩
  | case2 x h => exact ⟨0, by rw [headingAddLoop, if_neg h]; push_cast; ring⟩

/-- normalizeHeading lands in [0, 360). -/
theorem normalizeHeading_bounds (x : ℚ) :
    0 ≤ normalizeHeading x ∧ normalizeHeading x < 360 :=
  ⟨headingAddLoop_nonneg _, headingAddLoop_lt _ (headingSubLoop_lt x)⟩

/-- normalizeHeading computes the representative of x modulo 360 in
[0, 360), i.e. x - 360·⌊x/360⌋. -/
theorem normalizeHeading_eq_floor (x : ℚ) :
    normalizeHeading x = x - 360 * ⌊x / 360⌋ := by
  obtain ⟨k1, hk1⟩ := headingSubLoop_multiple x
  obtain ⟨k2, hk2⟩ := headingAddLoop_multiple (headingSubLoop x)
  have hval : normalizeHeading x = x - 360 * ((k1 : ℚ) - (k2 : ℚ)) := by
    unfold normalizeHeading
    rw [hk2, hk1]
    ring
  have hge : 0 ≤ x - 360 * ((k1 : ℚ) - (k2 : ℚ)) := hval ▸ (normalizeHeading_bounds x).1
  have hlt : x - 360 * ((k1 : ℚ) - (k2 : ℚ)) < 360 := hval ▸ (normalizeHeading_bounds x).2
  have hfl : ⌊x / 360⌋ = k1 - k2 := by
    rw [Int.floor_eq_iff]
    constructor
    · rw [le_div_iff₀ (by norm_num : (0:ℚ) < 360)]
      push_cast
      linarith
    · rw [div_lt_iff₀ (by norm_num : (0:ℚ) < 360)]
      push_cast
      linarith
  rw [hfl, hval]
  push_cast
  ring

/-- the heading output written as an explicit clamp of the PID formula. -/
theorem pidHeadingOutput_formula (cfg : AutopilotConfig) (pid : PidState) (st : FlightState) :
    pidHeadingOutput cfg pid st
      = max (-cfg.max_heading_rate) (min cfg.max_heading_rate
          (cfg.heading_pid.1 * pidHeadingError cfg st +
           cfg.heading_pid.2.1 * (pid.heading_integral + pidHeadingError cfg st * pidDt) +
           cfg.heading_pid.2.2 * ((pidHeadingError cfg st - pid.heading_last_error) / pidDt))) :=
  rfl

/-- the heading integral stored by one tick. -/
theorem update_pid_heading_integral (ap : Autopilot) :
    (update_pid_controls ap).1.heading_integral
      = ap.pid_state.heading_integral + pidHeadingError ap.config ap.current_state * pidDt := by
  simp [update_pid_controls]

/-- the heading last_error stored by one tick. -/
theorem update_pid_heading_last_error (ap : Autopilot) :
    (update_pid_controls ap).1.heading_last_error
      = pidHeadingError ap.config ap.current_state := by
  simp [update_pid_controls]

/-- the commanded heading published by one tick is the normalisation of
current heading plus clamped output. -/
theorem update_pid_target_heading (ap : Autopilot) :
    (update_pid_controls ap).2.target_heading
      = normalizeHeading (ap.current_state.heading
          + pidHeadingOutput ap.config ap.pid_state ap.current_state) := by
  simp [update_pid_controls]

/-- C7: for headings and targets in [0, 360), one tick normalises the
heading error into [-180, 180], clamps the output to ±max_heading_rate,
and commands new_heading = (current + output) mod 360 ∈ [0, 360); at the
spec's concrete scenario (current 350, target 10, rate 3, Kp=1, Ki=Kd=0)
the error is +20, the output +3, the commanded heading 353, and the
following tick from 353 commands 356. -/
theorem pid_heading_wrap (ap : Autopilot)
    (h1 : 0 ≤ ap.current_state.heading) (h2 : ap.current_state.heading < 360)
    (h3 : 0 ≤ ap.config.target_heading) (h4 : ap.config.target_heading < 360)
    (h5 : 0 ≤ ap.config.max_heading_rate) :
    (-180 ≤ pidHeadingError ap.config ap.current_state ∧
      pidHeadingError ap.config ap.current_state ≤ 180) ∧
    |pidHeadingOutput ap.config ap.pid_state ap.current_state|
      ≤ ap.config.max_heading_rate ∧
    ((update_pid_controls ap).2.target_heading
      = (ap.current_state.heading + pidHeadingOutput ap.config ap.pid_state ap.current_state)
        - 360 * ⌊(ap.current_state.heading
            + pidHeadingOutput ap.config ap.pid_state ap.current_state) / 360⌋) ∧
    (0 ≤ (update_pid_controls ap).2.target_heading ∧
      (update_pid_controls ap).2.target_heading < 360) ∧
    pidHeadingError headingWrapConfig headingWrapState1 = 20 ∧
    pidHeadingOutput headingWrapConfig zeroPidState headingWrapState1 = 3 ∧
    (update_pid_controls headingWrapAp1).2.target_heading = 353 ∧
    (update_pid_controls headingWrapAp2).2.target_heading = 356 := by
  have herr : -180 ≤ pidHeadingError ap.config ap.current_state ∧
      pidHeadingError ap.config ap.current_state ≤ 180 := by
    simp only [pidHeadingError]
    split_ifs with ha hb hb <;> constructor <;> linarith
  have hclamp : |pidHeadingOutput ap.config ap.pid_state ap.current_state|
      ≤ ap.config.max_heading_rate := by
    obtain ⟨x, hx⟩ := pidHeadingOutput_shape ap.config ap.pid_state ap.current_state
    rw [hx, abs_le]
    exact ⟨le_max_left _ _, max_le (by linarith) (min_le_left _ _)⟩
  have herrc : pidHeadingError headingWrapConfig headingWrapState1 = 20 := by
    norm_num [pidHeadingError, headingWrapConfig, headingWrapState1]
  have hoc : pidHeadingOutput headingWrapConfig zeroPidState headingWrapState1 = 3 := by
    rw [pidHeadingOutput_formula, herrc]
    norm_num [headingWrapConfig, zeroPidState, pidDt, min_def, max_def]
  have hc1 : (update_pid_controls headingWrapAp1).2.target_heading = 353 := by
    rw [update_pid_target_heading, normalizeHeading_eq_floor]
    have harg : headingWrapAp1.current_state.heading
        + pidHeadingOutput headingWrapAp1.config headingWrapAp1.pid_state
            headingWrapAp1.current_state = 353 := by
      show (350 : ℚ) + pidHeadingOutput headingWrapConfig zeroPidState headingWrapState1 = 353
      rw [hoc]
      norm_num
    rw [harg]
    have hfle : ⌊(353 : ℚ) / 360⌋ = 0 := by
      rw [Int.floor_eq_iff] <;> norm_num
    rw [hfle]
    norm_num
  have herrc2 : pidHeadingError headingWrapAp2.config headingWrapAp2.current_state = 17 := by
    norm_num [pidHeadingError, headingWrapAp2, headingWrapAp1, headingWrapConfig, headingWrapState1]
  have hint2 : headingWrapAp2.pid_state.heading_integral = 2 := by
    show (update_pid_controls headingWrapAp1).1.heading_integral = 2
    rw [update_pid_heading_integral]
    show zeroPidState.heading_integral + pidHeadingError headingWrapConfig headingWrapState1 * pidDt = 2
    rw [herrc]
    norm_num [zeroPidState, pidDt]
  have hlast2 : headingWrapAp2.pid_state.heading_last_error = 20 := by
    show (update_pid_controls headingWrapAp1).1.heading_last_error = 20
    rw [update_pid_heading_last_error]
    show pidHeadingError headingWrapConfig headingWrapState1 = 20
    exact herrc
  have hoc2 : pidHeadingOutput headingWrapAp2.config headingWrapAp2.pid_state
      headingWrapAp2.current_state = 3 := by
    rw [pidHeadingOutput_formula, herrc2, hint2, hlast2]
    norm_num [headingWrapAp2, headingWrapAp1, headingWrapConfig, pidDt, min_def, max_def]
  have hc2 : (update_pid_controls headingWrapAp2).2.target_heading = 356 := by
    rw [update_pid_target_heading, normalizeHeading_eq_floor]
    have harg : headingWrapAp2.current_state.heading
        + pidHeadingOutput headingWrapAp2.config headingWrapAp2.pid_state
            headingWrapAp2.current_state = 356 := by
      rw [hoc2]
      show (353 : ℚ) + 3 = 356
      norm_num
    rw [harg]
    have hfle : ⌊(356 : ℚ) / 360⌋ = 0 := by
      rw [Int.floor_eq_iff] <;> norm_num
    rw [hfle]
    norm_num
  refine ⟨herr, hclamp, ?_, ?_, herrc, hoc, hc1, hc2⟩
  · rw [update_pid_target_heading, normalizeHeading_eq_floor]
  · rw [update_pid_target_heading]
    exact normalizeHeading_bounds _

/-- witness for the C7 theorem at the wrap scenario itself. -/
theorem pid_heading_wrap_witness :
    (0 ≤ headingWrapAp1.current_state.heading ∧ headingWrapAp1.current_state.heading < 360 ∧
     0 ≤ headingWrapAp1.config.target_heading ∧ headingWrapAp1.config.target_heading < 360 ∧
     0 ≤ headingWrapAp1.config.max_heading_rate) ∧
    (-180 ≤ pidHeadingError headingWrapAp1.config headingWrapAp1.current_state ∧
      pidHeadingError headingWrapAp1.config headingWrapAp1.current_state ≤ 180) ∧
    (0 ≤ (update_pid_controls headingWrapAp1).2.target_heading ∧
      (update_pid_controls headingWrapAp1).2.target_heading < 360) :=
  ⟨⟨by norm_num [headingWrapAp1, headingWrapState1],
    by norm_num [headingWrapAp1, headingWrapState1],
    by norm_num [headingWrapAp1, headingWrapConfig],
    by norm_num [headingWrapAp1, headingWrapConfig],
    by norm_num [headingWrapAp1, headingWrapConfig]⟩,
   (pid_heading_wrap headingWrapAp1
      (by norm_num [headingWrapAp1, headingWrapState1])
      (by norm_num [headingWrapAp1, headingWrapState1])
      (by norm_num [headingWrapAp1, headingWrapConfig])
      (by norm_num [headingWrapAp1, headingWrapConfig])
      (by norm_num [headingWrapAp1, headingWrapConfig])).1,
   (pid_heading_wrap headingWrapAp1
      (by norm_num [headingWrapAp1, headingWrapState1])
      (by norm_num [headingWrapAp1, headingWrapState1])
      (by norm_num [headingWrapAp1, headingWrapConfig])
      (by norm_num [headingWrapAp1, headingWrapConfig])
      (by norm_num [headingWrapAp1, headingWrapConfig])).2.2.2.1⟩

/-! ## C5 -/

/-- C5: the best-position function selects GPS, then INS, then radio, then
leaves basic.position unchanged; and after any accepted position update
(source GPS/INS/LANDING_RADIO) or system-status update (component
GPS/INS/LANDING_RADIO/SAT_COM), basic.position equals the best position of
the resulting state. -/
theorem best_position_priority_and_fusion
    (st : ExtendedFlightState) (pos : Position) (src comp : ComponentId)
    (c : Bool) (now : Int)
    (hsrc : src = ComponentId.gps ∨ src = ComponentId.ins ∨ src = ComponentId.landingRadio)
    (hcomp : comp = ComponentId.gps ∨ comp = ComponentId.ins ∨
      comp = ComponentId.landingRadio ∨ comp = ComponentId.satCom) :
    (st.nav_data.gps_valid = true →
      flight_state_get_best_position st = st.nav_data.gps_position) ∧
    (st.nav_data.gps_valid = false → st.nav_data.ins_valid = true →
      flight_state_get_best_position st = st.nav_data.ins_position) ∧
    (st.nav_data.gps_valid = false → st.nav_data.ins_valid = false →
      st.nav_data.radio_valid = true →
      flight_state_get_best_position st = st.nav_data.radio_position) ∧
    (st.nav_data.gps_valid = false → st.nav_data.ins_valid = false →
      st.nav_data.radio_valid = false →
      flight_state_get_best_position st = st.basic.position) ∧
    ((flight_state_update_position st pos src now).basic.position
      = flight_state_get_best_position (flight_state_update_position st pos src now)) ∧
    ((flight_state_update_system_status st comp c now).basic.position
      = flight_state_get_best_position (flight_state_update_system_status st comp c now)) := by
  refine ⟨?_, ?_, ?_, ?_, ?_, ?_⟩
  · intro h; simp [flight_state_get_best_position, h]
  · intro h1 h2; simp [flight_state_get_best_position, h1, h2]
  · intro h1 h2 h3; simp [flight_state_get_best_position, h1, h2, h3]
  · intro h1 h2 h3; simp [flight_state_get_best_position, h1, h2, h3]
  · rcases hsrc with h | h | h <;> subst h <;>
      simp only [flight_state_update_position, flight_state_get_best_position] <;>
      cases st.nav_data.gps_valid <;> cases st.nav_data.ins_valid <;>
      cases st.nav_data.radio_valid <;> simp
  · rcases hcomp with h | h | h | h <;> subst h <;> cases c <;>
      simp only [flight_state_update_system_status, flight_state_get_best_position] <;>
      cases st.nav_data.gps_valid <;> cases st.nav_data.ins_valid <;>
      cases st.nav_data.radio_valid <;> simp

/-- witness for the C5 theorem: a GPS position update and a SATCOM status
change applied to the concrete GPS-valid state. -/
theorem best_position_priority_and_fusion_witness :
    (ComponentId.gps = ComponentId.gps ∨ ComponentId.gps = ComponentId.ins ∨
      ComponentId.gps = ComponentId.landingRadio) ∧
    ((flight_state_update_position exampleStateGps
        { latitude := 1, longitude := 2, altitude := 3 } ComponentId.gps 200).basic.position
      = flight_state_get_best_position (flight_state_update_position exampleStateGps
          { latitude := 1, longitude := 2, altitude := 3 } ComponentId.gps 200)) ∧
    ((flight_state_update_system_status exampleStateGps ComponentId.satCom false 200).basic.position
      = flight_state_get_best_position
          (flight_state_update_system_status exampleStateGps ComponentId.satCom false 200)) :=
  ⟨Or.inl rfl,
   (best_position_priority_and_fusion exampleStateGps
      { latitude := 1, longitude := 2, altitude := 3 } ComponentId.gps ComponentId.satCom
      false 200 (Or.inl rfl) (Or.inr (Or.inr (Or.inr rfl)))).2.2.2.2.1,
   (best_position_priority_and_fusion exampleStateGps
      { latitude := 1, longitude := 2, altitude := 3 } ComponentId.gps ComponentId.satCom
      false 200 (Or.inl rfl) (Or.inr (Or.inr (Or.inr rfl)))).2.2.2.2.2⟩

/-! ## C4: structural bounds -/

/-- the prune loop keeps read_idx in range and count in [0, entry count]. -/
theorem pruneLoop_bounds (ts : List Int) (now : Int) :
    ∀ (fuel : Nat) (r c : Int), 0 ≤ c → 0 ≤ r → r < 100 →
      0 ≤ (pruneLoop ts now r c fuel).1 ∧ (pruneLoop ts now r c fuel).1 < 100 ∧
      0 ≤ (pruneLoop ts now r c fuel).2 ∧ (pruneLoop ts now r c fuel).2 ≤ c := by
  intro fuel
  induction fuel with
  | zero =>
      intro r c h1 h2 h3
      simp only [pruneLoop]
      omega
  | succ n ih =>
      intro r c h1 h2 h3
      simp only [pruneLoop]
      split
      · rename_i hcond
        have hrec := ih ((r + 1) % MAX_BUS_MESSAGES) (c - 1)
          (by omega)
          (by simp only [MAX_BUS_MESSAGES]; omega)
          (by simp only [MAX_BUS_MESSAGES]; omega)
        omega
      · omega

/-- prune_old_messages preserves the structural bounds and touches only
read_idx and count. -/
theorem prune_old_messages_bounds (q : MessageQueue) (now : Int)
    (h1 : 0 ≤ q.count) (h2 : 0 ≤ q.read_idx) (h3 : q.read_idx < 100) :
    0 ≤ (prune_old_messages q now).read_idx ∧
    (prune_old_messages q now).read_idx < 100 ∧
    0 ≤ (prune_old_messages q now).count ∧
    (prune_old_messages q now).count ≤ q.count ∧
    (prune_old_messages q now).messages = q.messages ∧
    (prune_old_messages q now).timestamps = q.timestamps ∧
    (prune_old_messages q now).write_idx = q.write_idx := by
  unfold prune_old_messages
  split
  · exact ⟨h2, h3, h1, le_refl _, rfl, rfl, rfl⟩
  · have hp := pruneLoop_bounds q.timestamps now q.count.toNat q.read_idx q.count h1 h2 h3
    exact ⟨hp.1, hp.2.1, hp.2.2.1, hp.2.2.2, rfl, rfl, rfl⟩

/-- every bus operation preserves the structural bounds. -/
theorem busStep_bounds (bus : Bus) (op : BusOp) (h : BusBounds bus) :
    BusBounds (busStep bus op) := by
  obtain ⟨hc0, hc1, hr0, hr1, hw0, hw1, hml, htl⟩ := h
  have hM : MAX_BUS_MESSAGES = (100 : Int) := rfl
  rw [hM] at hc1 hr1 hw1
  cases op with
  | subscribe s t =>
      have hq : (bus_subscribe bus s t).2.queue = bus.queue := by
        unfold bus_subscribe
        split <;> rfl
      show BusBounds (bus_subscribe bus s t).2
      simp only [BusBounds, hq, hM]
      exact ⟨hc0, by omega, hr0, by omega, hw0, by omega, hml, htl⟩
  | publish m =>
      show BusBounds (bus_publish bus m).2
      unfold bus_publish
      split
      · simp only [BusBounds, hM]
        exact ⟨hc0, by omega, hr0, by omega, hw0, by omega, hml, htl⟩
      · rename_i hnotfull
        rw [hM] at hnotfull
        simp only [BusBounds, hM]
        refine ⟨by omega, by omega, hr0, by omega, by omega, by omega, ?_, htl⟩
        simpa using hml
  | read s now =>
      obtain ⟨e0, e1, e2, e3, e4, e5, e6⟩ :
          0 ≤ (effectiveQueue bus now).count ∧
          (effectiveQueue bus now).count ≤ 100 ∧
          0 ≤ (effectiveQueue bus now).read_idx ∧
          (effectiveQueue bus now).read_idx < 100 ∧
          (effectiveQueue bus now).write_idx = bus.queue.write_idx ∧
          (effectiveQueue bus now).messages = bus.queue.messages ∧
          (effectiveQueue bus now).timestamps = bus.queue.timestamps := by
        unfold effectiveQueue
        split
        · have hp := prune_old_messages_bounds bus.queue now hc0 hr0 hr1
          exact ⟨hp.2.2.1, by omega, hp.1, hp.2.1, hp.2.2.2.2.2.2,
            hp.2.2.2.2.1, hp.2.2.2.2.2.1⟩
        · exact ⟨hc0, by omega, hr0, hr1, rfl, rfl, rfl⟩
      show BusBounds (bus_read_message bus s now).2
      simp only [bus_read_message]
      split
      · simp only [BusBounds, hM]
        exact ⟨e0, by omega, e2, by omega, by omega, by omega,
          by rw [e5]; exact hml, by rw [e6]; exact htl⟩
      · rename_i hnz
        split
        · simp only [BusBounds, hM]
          exact ⟨e0, by omega, e2, by omega, by omega, by omega,
            by rw [e5]; exact hml, by rw [e6]; exact htl⟩
        · rename_i current hsome
          simp only [BusBounds, hM]
          exact ⟨by omega, by omega, by omega, by omega, by omega, by omega,
            by rw [e5]; exact hml, by rw [e6]; exact htl⟩

/-- the fresh bus satisfies the structural bounds. -/
theorem bus_init_bounds : BusBounds bus_init := by
  simp [BusBounds, bus_init, MAX_BUS_MESSAGES]

/-- any run from the fresh bus satisfies the structural bounds. -/
theorem busRun_bounds (ops : List BusOp) : BusBounds (busRun ops) := by
  unfold busRun
  have hfold : ∀ (l : List BusOp) (bus : Bus), BusBounds bus →
      BusBounds (l.foldl busStep bus) := by
    intro l
    induction l with
    | nil => intro bus h; exact h
    | cons op rest ih => intro bus h; exact ih (busStep bus op) (busStep_bounds bus op h)
  exact hfold ops bus_init bus_init_bounds

/-! ## C3/C4: ring-buffer refinement for clean runs -/

/-- getD after set at a different index. -/
theorem getD_set_ne_idx (l : List Message) (i j : Nat) (a : Message) (h : i ≠ j) :
    (l.set i a).getD j zeroMessage = l.getD j zeroMessage := by
  rw [List.getD_eq_getElem?_getD, List.getD_eq_getElem?_getD, List.getElem?_set_ne h]

/-- getD after set at the same in-range index. -/
theorem getD_set_self_idx (l : List Message) (i : Nat) (a : Message) (h : i < l.length) :
    (l.set i a).getD i zeroMessage = a := by
  rw [List.getD_eq_getElem?_getD, List.getElem?_set_eq_of_lt a h]
  rfl

/-- publishing appends the message to the live window. -/
theorem queueWindow_publish (q : MessageQueue) (m : Message)
    (h0 : 0 ≤ q.count) (h1 : q.count < 100) (hr0 : 0 ≤ q.read_idx) (hr1 : q.read_idx < 100)
    (hlen : q.messages.length = 100)
    (hw : q.write_idx = (q.read_idx + q.count) % 100) :
    queueWindow { q with
        messages := q.messages.set q.write_idx.toNat m
        write_idx := (q.write_idx + 1) % MAX_BUS_MESSAGES
        count := q.count + 1 }
      = queueWindow q ++ [m] := by
  unfold queueWindow
  simp only [MAX_BUS_MESSAGES]
  have hn : (q.count + 1).toNat = q.count.toNat + 1 := by omega
  rw [hn, List.range_succ, List.map_append]
  congr 1
  · apply List.map_congr_left
    intro i hi
    have hi2 : (i : Int) < q.count := by
      have := List.mem_range.mp hi
      omega
    have hi0 : 0 ≤ (i : Int) := Int.natCast_nonneg i
    apply getD_set_ne_idx
    omega
  · simp only [List.map_cons, List.map_nil]
    congr 1
    have hcast : ((q.count.toNat : Int)) = q.count := Int.toNat_of_nonneg h0
    rw [hcast, ← hw]
    apply getD_set_self_idx
    omega

/-- a non-empty window is its head slot consed onto the compacted window. -/
theorem queueWindow_read (q : MessageQueue)
    (h0 : 0 < q.count) (hr0 : 0 ≤ q.read_idx) (hr1 : q.read_idx < 100) :
    queueWindow q
      = q.messages.getD q.read_idx.toNat zeroMessage ::
        queueWindow { q with
          read_idx := (q.read_idx + 1) % MAX_BUS_MESSAGES
          count := q.count - 1 } := by
  unfold queueWindow
  simp only [MAX_BUS_MESSAGES]
  have hn : q.count.toNat = (q.count - 1).toNat + 1 := by omega
  rw [hn, List.range_succ_eq_map, List.map_cons, List.map_map]
  congr 1
  · congr 1
    omega
  · apply List.map_congr_left
    intro i hi
    simp only [Function.comp_apply]
    congr 1
    push_cast
    omega

/-- BusAbs only depends on the queue. -/
theorem busAbs_of_queue_eq (bus bus2 : Bus) (pending : List Message)
    (h : BusAbs bus pending) (hq : bus2.queue = bus.queue) : BusAbs bus2 pending := by
  unfold BusAbs BusBounds queueWindow at h ⊢
  rw [hq]
  exact h

/-- structure eta for Bus. -/
theorem bus_eta (bus : Bus) :
    ({ queue := bus.queue, subscriptions := bus.subscriptions } : Bus) = bus := rfl

/-- a successful publish appends the message to the abstract pending list. -/
theorem busAbs_publish_success (bus : Bus) (pending : List Message) (m : Message)
    (h : BusAbs bus pending) (hnf : bus.queue.count < MAX_BUS_MESSAGES) :
    (bus_publish bus m).1 = ErrorCode.success ∧
    BusAbs (bus_publish bus m).2 (pending ++ [m]) := by
  obtain ⟨hb, hlen, hwin, hw⟩ := h
  have hbb := hb
  obtain ⟨b1, b2, b3, b4, b5, b6, b7, b8⟩ := hb
  have hM : MAX_BUS_MESSAGES = (100 : Int) := rfl
  have hng : ¬ (bus.queue.count ≥ MAX_BUS_MESSAGES) := not_le.mpr hnf
  have hq2 : (bus_publish bus m).2.queue =
      { bus.queue with
        messages := bus.queue.messages.set bus.queue.write_idx.toNat m
        write_idx := (bus.queue.write_idx + 1) % MAX_BUS_MESSAGES
        count := bus.queue.count + 1 } := by
    simp [bus_publish, hng]
  refine ⟨by simp [bus_publish, hng], busStep_bounds bus (BusOp.publish m) hbb, ?_, ?_, ?_⟩
  · rw [hq2]
    show bus.queue.count + 1 = ((pending ++ [m]).length : Int)
    rw [List.length_append]
    simp only [List.length_cons, List.length_nil]
    omega
  · rw [hq2, queueWindow_publish bus.queue m b1 (hM ▸ hnf) b3 (hM ▸ b4) b7 (hM ▸ hw), hwin]
  · rw [hq2]
    show (bus.queue.write_idx + 1) % MAX_BUS_MESSAGES
        = (bus.queue.read_idx + (bus.queue.count + 1)) % MAX_BUS_MESSAGES
    rw [hM] at hw ⊢
    omega

/-- a clean read either changes nothing (no match) or pops the head of the
abstract pending list. -/
theorem busAbs_read_clean (bus : Bus) (pending : List Message)
    (s : ComponentId) (now : Int)
    (h : BusAbs bus pending) (hclean : readCleanB bus s now = true) :
    ((bus_read_message bus s now).1 = none → (bus_read_message bus s now).2 = bus) ∧
    (∀ m, (bus_read_message bus s now).1 = some m →
      pending = m :: pending.tail ∧
      BusAbs (bus_read_message bus s now).2 pending.tail) := by
  obtain ⟨hb, hlen, hwin, hw⟩ := h
  have hbb := hb
  obtain ⟨b1, b2, b3, b4, b5, b6, b7, b8⟩ := hb
  have hM : MAX_BUS_MESSAGES = (100 : Int) := rfl
  simp only [readCleanB, Bool.and_eq_true, beq_iff_eq] at hclean
  have heff : effectiveQueue bus now = bus.queue := hclean.1
  by_cases hz : bus.queue.count = 0
  · have hnone : bus_read_message bus s now = (none, bus) := by
      simp [bus_read_message, heff, hz, bus_eta]
    rw [hnone]
    exact ⟨fun _ => rfl, fun m hm => by simp at hm⟩
  · cases hscan : scanForMatch bus.queue.messages bus.subscriptions s
        bus.queue.read_idx bus.queue.count.toNat with
    | none =>
        have hnone : bus_read_message bus s now = (none, bus) := by
          simp [bus_read_message, heff, hz, hscan, bus_eta]
        rw [hnone]
        exact ⟨fun _ => rfl, fun m hm => by simp at hm⟩
    | some current =>
        have hcur : current = bus.queue.read_idx := by
          rw [hscan] at hclean
          simpa using hclean.2
        subst hcur
        have hsome : bus_read_message bus s now =
            (some (bus.queue.messages.getD bus.queue.read_idx.toNat zeroMessage),
             { bus with queue :=
                { bus.queue with
                    read_idx := (bus.queue.read_idx + 1) % MAX_BUS_MESSAGES
                    count := bus.queue.count - 1 } }) := by
          simp [bus_read_message, heff, hz, hscan]
        have hcpos : 0 < bus.queue.count := by omega
        have hcons := queueWindow_read bus.queue hcpos b3 (by omega)
        rw [hwin] at hcons
        have htail : pending.tail =
            queueWindow { bus.queue with
              read_idx := (bus.queue.read_idx + 1) % MAX_BUS_MESSAGES
              count := bus.queue.count - 1 } := by
          rw [hcons]
          rfl
        constructor
        · intro hnone
          rw [hsome] at hnone
          simp at hnone
        · intro m hm
          rw [hsome] at hm
          simp only [Option.some.injEq] at hm
          subst hm
          refine ⟨by rw [htail]; exact hcons, ?_⟩
          have hbnd : BusBounds (bus_read_message bus s now).2 :=
            busStep_bounds bus (BusOp.read s now) hbb
          rw [hsome] at hbnd ⊢
          have hplen : pending.length = pending.tail.length + 1 := by
            rw [hcons]
            simp
          refine ⟨hbnd, ?_, htail.symm, ?_⟩
          · show bus.queue.count - 1 = (pending.tail.length : Int)
            omega
          · show bus.queue.write_idx
              = ((bus.queue.read_idx + 1) % MAX_BUS_MESSAGES
                  + (bus.queue.count - 1)) % MAX_BUS_MESSAGES
            rw [hM] at hw ⊢
            omega

/-- trace unfolding: a subscribe contributes nothing. -/
theorem busTraceAux_subscribe (bus : Bus) (s : ComponentId) (t : MessageType)
    (rest : List BusOp) :
    busTraceAux bus (BusOp.subscribe s t :: rest)
      = busTraceAux (busStep bus (BusOp.subscribe s t)) rest := rfl

/-- trace unfolding: an accepted publish is recorded. -/
theorem busTraceAux_publish_success (bus : Bus) (m : Message) (rest : List BusOp)
    (h : (bus_publish bus m).1 = ErrorCode.success) :
    busTraceAux bus (BusOp.publish m :: rest)
      = (m :: (busTraceAux (busStep bus (BusOp.publish m)) rest).1,
         (busTraceAux (busStep bus (BusOp.publish m)) rest).2) := by
  simp [busTraceAux, h]

/-- trace unfolding: a rejected publish is not recorded. -/
theorem busTraceAux_publish_fail (bus : Bus) (m : Message) (rest : List BusOp)
    (h : (bus_publish bus m).1 ≠ ErrorCode.success) :
    busTraceAux bus (BusOp.publish m :: rest)
      = busTraceAux (busStep bus (BusOp.publish m)) rest := by
  simp [busTraceAux, h]

/-- trace unfolding: an empty read is not recorded. -/
theorem busTraceAux_read_none (bus : Bus) (s : ComponentId) (now : Int)
    (rest : List BusOp) (h : (bus_read_message bus s now).1 = none) :
    busTraceAux bus (BusOp.read s now :: rest)
      = busTraceAux (busStep bus (BusOp.read s now)) rest := by
  simp [busTraceAux, h]

/-- trace unfolding: a delivered message is recorded. -/
theorem busTraceAux_read_some (bus : Bus) (s : ComponentId) (now : Int)
    (rest : List BusOp) (m : Message) (h : (bus_read_message bus s now).1 = some m) :
    busTraceAux bus (BusOp.read s now :: rest)
      = ((busTraceAux (busStep bus (BusOp.read s now)) rest).1,
         m :: (busTraceAux (busStep bus (BusOp.read s now)) rest).2) := by
  simp [busTraceAux, h]

/-- cleanliness unfolding for the three operations. -/
theorem cleanFromB_cons_subscribe (bus : Bus) (s : ComponentId) (t : MessageType)
    (rest : List BusOp) :
    cleanFromB bus (BusOp.subscribe s t :: rest)
      = cleanFromB (busStep bus (BusOp.subscribe s t)) rest := by
  simp [cleanFromB]

/-- cleanliness unfolding: publish. -/
theorem cleanFromB_cons_publish (bus : Bus) (m : Message) (rest : List BusOp) :
    cleanFromB bus (BusOp.publish m :: rest)
      = cleanFromB (busStep bus (BusOp.publish m)) rest := by
  simp [cleanFromB]

/-- cleanliness unfolding: read. -/
theorem cleanFromB_cons_read (bus : Bus) (s : ComponentId) (now : Int)
    (rest : List BusOp) :
    cleanFromB bus (BusOp.read s now :: rest)
      = (readCleanB bus s now && cleanFromB (busStep bus (BusOp.read s now)) rest) := rfl

/-- main refinement induction: along a clean run every delivered message is
accounted for by an accepted publish or by the initial pending list, and
the final state is again a ring-buffer representation of some pending
list. -/
theorem busTrace_refinement (ops : List BusOp) :
    ∀ (bus : Bus) (pending : List Message), BusAbs bus pending →
      cleanFromB bus ops = true →
      (∀ v : Message, ((busTraceAux bus ops).2).count v
          ≤ ((busTraceAux bus ops).1).count v + pending.count v) ∧
      ∃ pending2, BusAbs (ops.foldl busStep bus) pending2 := by
  induction ops with
  | nil =>
      intro bus pending habs hclean
      exact ⟨fun v => by simp [busTraceAux], ⟨pending, habs⟩⟩
  | cons op rest ih =>
      intro bus pending habs hclean
      cases op with
      | subscribe s t =>
          rw [cleanFromB_cons_subscribe] at hclean
          have hq : (busStep bus (BusOp.subscribe s t)).queue = bus.queue := by
            simp only [busStep]
            unfold bus_subscribe
            split <;> rfl
          have habs2 : BusAbs (busStep bus (BusOp.subscribe s t)) pending :=
            busAbs_of_queue_eq _ _ _ habs hq
          have ihres := ih (busStep bus (BusOp.subscribe s t)) pending habs2 hclean
          refine ⟨fun v => ?_, by simpa [List.foldl_cons] using ihres.2⟩
          rw [busTraceAux_subscribe]
          exact ihres.1 v
      | publish m =>
          rw [cleanFromB_cons_publish] at hclean
          by_cases hfull : bus.queue.count ≥ MAX_BUS_MESSAGES
          · have hfail : bus_publish bus m = (ErrorCode.errorCommunication, bus) := by
              simp [bus_publish, hfull]
            have hstep : busStep bus (BusOp.publish m) = bus := by
              simp [busStep, hfail]
            rw [hstep] at hclean
            have ihres := ih bus pending habs hclean
            refine ⟨fun v => ?_, ?_⟩
            · rw [busTraceAux_publish_fail bus m rest (by rw [hfail]; simp), hstep]
              exact ihres.1 v
            · simpa [List.foldl_cons, hstep] using ihres.2
          · push_neg at hfull
            obtain ⟨hsucc, habs2⟩ := busAbs_publish_success bus pending m habs hfull
            have ihres := ih (busStep bus (BusOp.publish m)) (pending ++ [m]) habs2 hclean
            refine ⟨fun v => ?_, by simpa [List.foldl_cons] using ihres.2⟩
            rw [busTraceAux_publish_success bus m rest hsucc]
            have h1 := ihres.1 v
            rw [List.count_append] at h1
            by_cases hmv : m = v <;>
              simp only [List.count_cons, List.count_singleton, hmv] at h1 ⊢ <;>
              simp_all <;> omega
      | read s now =>
          rw [cleanFromB_cons_read, Bool.and_eq_true] at hclean
          obtain ⟨hop, hrest⟩ := hclean
          have hread := busAbs_read_clean bus pending s now habs hop
          cases hres : (bus_read_message bus s now).1 with
          | none =>
              have hstep : busStep bus (BusOp.read s now) = bus := hread.1 hres
              rw [hstep] at hrest
              have ihres := ih bus pending habs hrest
              refine ⟨fun v => ?_, ?_⟩
              · rw [busTraceAux_read_none bus s now rest hres, hstep]
                exact ihres.1 v
              · simpa [List.foldl_cons, hstep] using ihres.2
          | some m =>
              obtain ⟨hpend, habs2⟩ := hread.2 m hres
              have ihres := ih (busStep bus (BusOp.read s now)) pending.tail habs2 hrest
              refine ⟨fun v => ?_, by simpa [List.foldl_cons] using ihres.2⟩
              rw [busTraceAux_read_some bus s now rest m hres]
              have h1 := ihres.1 v
              have hpc : pending.count v
                  = pending.tail.count v + (if m = v then 1 else 0) := by
                conv_lhs => rw [hpend]
                rw [List.count_cons]
                simp [beq_iff_eq]
              have h2 : (m :: (busTraceAux (busStep bus (BusOp.read s now)) rest).2).count v
                  = (busTraceAux (busStep bus (BusOp.read s now)) rest).2.count v
                    + (if m = v then 1 else 0) := by
                rw [List.count_cons]
                simp [beq_iff_eq]
              show (m :: (busTraceAux (busStep bus (BusOp.read s now)) rest).2).count v
                  ≤ (busTraceAux (busStep bus (BusOp.read s now)) rest).1.count v
                    + pending.count v
              rcases eq_or_ne m v with hmv | hmv
              · rw [if_pos hmv] at h2 hpc
                omega
              · rw [if_neg hmv] at h2 hpc
                omega

/-- the fresh bus represents the empty pending list. -/
theorem busAbs_init : BusAbs bus_init [] := by
  refine ⟨bus_init_bounds, rfl, ?_, by decide⟩
  simp [queueWindow, bus_init]

/-- C4 (amended): the structural bounds 0 ≤ count ≤ capacity and
read_idx, write_idx ∈ [0, capacity) hold for every reachable bus state;
and when no read has pruned or skipped messages (every delivered message
was at read_idx), (write_idx − read_idx) mod capacity = count mod capacity. -/
theorem ring_buffer_bounds_and_count (ops : List BusOp) :
    BusBounds (busRun ops) ∧
    (cleanFromB bus_init ops = true →
      ((busRun ops).queue.write_idx - (busRun ops).queue.read_idx) % MAX_BUS_MESSAGES
        = (busRun ops).queue.count % MAX_BUS_MESSAGES) := by
  refine ⟨busRun_bounds ops, fun h => ?_⟩
  obtain ⟨-, pending2, habs⟩ := busTrace_refinement ops bus_init [] busAbs_init h
  obtain ⟨hb, hlen, hwin, hw⟩ := habs
  have hM : MAX_BUS_MESSAGES = (100 : Int) := rfl
  rw [hM] at hw ⊢
  have hrun : busRun ops = ops.foldl busStep bus_init := rfl
  rw [hrun]
  omega

/-- witness for the C4 theorem on a concrete clean trace. -/
theorem ring_buffer_bounds_and_count_witness :
    cleanFromB bus_init cleanTraceOps = true ∧
    ((busRun cleanTraceOps).queue.write_idx - (busRun cleanTraceOps).queue.read_idx)
        % MAX_BUS_MESSAGES
      = (busRun cleanTraceOps).queue.count % MAX_BUS_MESSAGES :=
  ⟨by decide, (ring_buffer_bounds_and_count cleanTraceOps).2 (by decide)⟩

set_option maxRecDepth 4000 in
/-- C4 counterexample: after subscribe, three publishes and one read that
skips two messages (no pruning: the only read happens at count 3, far below
the half-full threshold of 50), the state has read_idx = write_idx = 3 but
count = 2, so (write_idx − read_idx) mod capacity ≠ count. -/
theorem skip_read_breaks_count_equation :
    (busRun skipTraceOps).queue.read_idx = 3 ∧
    (busRun skipTraceOps).queue.write_idx = 3 ∧
    (busRun skipTraceOps).queue.count = 2 ∧
    ¬ (((busRun skipTraceOps).queue.write_idx - (busRun skipTraceOps).queue.read_idx)
        % MAX_BUS_MESSAGES
      = (busRun skipTraceOps).queue.count) ∧
    (busRun (skipTraceOps.take 4)).queue.count ≤ MAX_BUS_MESSAGES / 2 := by
  decide

set_option maxRecDepth 10000 in
set_option maxHeartbeats 2000000 in
/-- C3 counterexample: on the redelivery trace the STATE_RESPONSE message is
accepted by publish exactly once but returned by read_message twice: the
first read skips one message (count over-counts by one), 99 further
publishes wrap the ring past the stale slot, and the second read scans
around to the already-delivered copy. -/
theorem skip_read_redelivers_published_message :
    (busAccepted redeliveryOps).count respMsg = 1 ∧
    (busDelivered redeliveryOps).count respMsg = 2 := by
  decide

/-- the live window has exactly count entries. -/
theorem queueWindow_length (q : MessageQueue) :
    (queueWindow q).length = q.count.toNat := by
  simp [queueWindow]

/-- the prune loop removes a prefix of the live window and keeps the
write-index equation: pruning pops heads, read_idx and count move in
lockstep. -/
theorem pruneLoop_window (msgs : List Message) (ts : List Int) (w now : Int) :
    ∀ (fuel : Nat) (r c : Int), 0 ≤ c → 0 ≤ r → r < 100 →
      w = (r + c) % MAX_BUS_MESSAGES →
      ∃ l : List Message,
        queueWindow
            { messages := msgs, timestamps := ts, read_idx := r,
              write_idx := w, count := c }
          = l ++ queueWindow
            { messages := msgs, timestamps := ts,
              read_idx := (pruneLoop ts now r c fuel).1, write_idx := w,
              count := (pruneLoop ts now r c fuel).2 } ∧
        w = ((pruneLoop ts now r c fuel).1 + (pruneLoop ts now r c fuel).2)
              % MAX_BUS_MESSAGES := by
  intro fuel
  induction fuel with
  | zero =>
      intro r c h0 h1 h2 hw
      simp only [pruneLoop]
      exact ⟨[], by simp, hw⟩
  | succ n ih =>
      intro r c h0 h1 h2 hw
      have hM : MAX_BUS_MESSAGES = (100 : Int) := rfl
      simp only [pruneLoop]
      split
      · rename_i hcond
        have hc : 0 < c := hcond.1
        obtain ⟨l, hl, hw2⟩ := ih ((r + 1) % MAX_BUS_MESSAGES) (c - 1)
          (by omega)
          (by rw [hM]; omega)
          (by rw [hM]; omega)
          (by rw [hM] at hw ⊢; omega)
        have hcons := queueWindow_read
          { messages := msgs, timestamps := ts, read_idx := r, write_idx := w, count := c }
          hc h1 h2
        refine ⟨msgs.getD r.toNat zeroMessage :: l, ?_, hw2⟩
        rw [hcons, hl]
        rfl
      · exact ⟨[], by simp, hw⟩

/-- the queue bus_read_message scans still represents a pending list: the
one of the pre-state with a pruned prefix removed. -/
theorem busAbs_effective (bus : Bus) (pending : List Message) (now : Int)
    (h : BusAbs bus pending) :
    ∃ pending1 : List Message,
      (∃ l : List Message, pending = l ++ pending1) ∧
      BusAbs { bus with queue := effectiveQueue bus now } pending1 := by
  obtain ⟨hb, hlen, hwin, hw⟩ := h
  have hbb := hb
  obtain ⟨b1, b2, b3, b4, b5, b6, b7, b8⟩ := hb
  have hM : MAX_BUS_MESSAGES = (100 : Int) := rfl
  by_cases hgt : bus.queue.count > MAX_BUS_MESSAGES / 2
  · have heq : effectiveQueue bus now = prune_old_messages bus.queue now := by
      unfold effectiveQueue
      rw [if_pos hgt]
    have hne : ¬ (bus.queue.count = 0) := by
      rw [hM] at hgt
      omega
    have hpr : prune_old_messages bus.queue now =
        { bus.queue with
          read_idx := (pruneLoop bus.queue.timestamps now bus.queue.read_idx
            bus.queue.count bus.queue.count.toNat).1
          count := (pruneLoop bus.queue.timestamps now bus.queue.read_idx
            bus.queue.count bus.queue.count.toNat).2 } := by
      unfold prune_old_messages
      rw [if_neg hne]
    obtain ⟨l, hl, hw2⟩ := pruneLoop_window bus.queue.messages bus.queue.timestamps
      bus.queue.write_idx now bus.queue.count.toNat bus.queue.read_idx bus.queue.count
      b1 b3 (hM ▸ b4) hw
    have hpb := pruneLoop_bounds bus.queue.timestamps now bus.queue.count.toNat
      bus.queue.read_idx bus.queue.count b1 b3 (hM ▸ b4)
    set rc := pruneLoop bus.queue.timestamps now bus.queue.read_idx
      bus.queue.count bus.queue.count.toNat with hrc
    have hq2 : ({ bus with queue := effectiveQueue bus now } : Bus).queue =
        { messages := bus.queue.messages, timestamps := bus.queue.timestamps,
          read_idx := rc.1, write_idx := bus.queue.write_idx, count := rc.2 } := by
      show effectiveQueue bus now = _
      rw [heq, hpr]
    refine ⟨queueWindow
      { messages := bus.queue.messages,
        timestamps := bus.queue.timestamps, read_idx := rc.1,
        write_idx := bus.queue.write_idx, count := rc.2 }, ⟨l, ?_⟩, ?_⟩
    · rw [← hwin]
      exact hl
    · unfold BusAbs BusBounds
      rw [hq2]
      refine ⟨⟨hpb.2.2.1, ?_, hpb.1, ?_, b5, b6, b7, b8⟩, ?_, rfl, ?_⟩
      · show rc.2 ≤ MAX_BUS_MESSAGES
        rw [hM] at b2 ⊢
        omega
      · rw [hM]
        exact hpb.2.1
      · rw [queueWindow_length]
        show rc.2 = ((rc.2.toNat : Nat) : Int)
        omega
      · exact hw2
  · have heq : effectiveQueue bus now = bus.queue := by
      unfold effectiveQueue
      rw [if_neg hgt]
    have habs0 : BusAbs bus pending := ⟨hbb, hlen, hwin, hw⟩
    exact ⟨pending, ⟨[], by simp⟩,
      busAbs_of_queue_eq bus { bus with queue := effectiveQueue bus now } pending habs0 heq⟩

/-- a skip-free read (pruning allowed) either delivers nothing, leaving a
representation of the pruned pending list, or pops that list's head. -/
theorem busAbs_read_skipfree (bus : Bus) (pending : List Message)
    (s : ComponentId) (now : Int)
    (h : BusAbs bus pending) (hsf : readSkipFreeB bus s now = true) :
    ∃ pending1 : List Message,
      (∀ v : Message, pending1.count v ≤ pending.count v) ∧
      ((bus_read_message bus s now).1 = none →
        BusAbs (bus_read_message bus s now).2 pending1) ∧
      (∀ m, (bus_read_message bus s now).1 = some m →
        pending1 = m :: pending1.tail ∧
        BusAbs (bus_read_message bus s now).2 pending1.tail) := by
  obtain ⟨pending1, ⟨l, hsplit⟩, habs1⟩ := busAbs_effective bus pending now h
  have habs1c := habs1
  have hcount : ∀ v : Message, pending1.count v ≤ pending.count v := by
    intro v
    rw [hsplit, List.count_append]
    omega
  obtain ⟨hb1, hlen1, hwin1, hw1⟩ := habs1
  obtain ⟨c1, c2, c3, c4, c5, c6, c7, c8⟩ := hb1
  have hQ : ({ bus with queue := effectiveQueue bus now } : Bus).queue
      = effectiveQueue bus now := rfl
  rw [hQ] at c1 c2 c3 c4 c5 c6 c7 c8 hlen1 hwin1 hw1
  have hM : MAX_BUS_MESSAGES = (100 : Int) := rfl
  refine ⟨pending1, hcount, ?_, ?_⟩
  · intro hnone
    by_cases hz : (effectiveQueue bus now).count = 0
    · have heq : bus_read_message bus s now
          = (none, { bus with queue := effectiveQueue bus now }) := by
        simp [bus_read_message, hz]
      rw [heq]
      exact habs1c
    · cases hscan : scanForMatch (effectiveQueue bus now).messages bus.subscriptions s
          (effectiveQueue bus now).read_idx (effectiveQueue bus now).count.toNat with
      | none =>
          have heq : bus_read_message bus s now
              = (none, { bus with queue := effectiveQueue bus now }) := by
            simp [bus_read_message, hz, hscan]
          rw [heq]
          exact habs1c
      | some current =>
          have heq : (bus_read_message bus s now).1
              = some ((effectiveQueue bus now).messages.getD current.toNat zeroMessage) := by
            simp [bus_read_message, hz, hscan]
          rw [heq] at hnone
          simp at hnone
  · intro m hm
    by_cases hz : (effectiveQueue bus now).count = 0
    · have heq : bus_read_message bus s now
          = (none, { bus with queue := effectiveQueue bus now }) := by
        simp [bus_read_message, hz]
      rw [heq] at hm
      simp at hm
    · cases hscan : scanForMatch (effectiveQueue bus now).messages bus.subscriptions s
          (effectiveQueue bus now).read_idx (effectiveQueue bus now).count.toNat with
      | none =>
          have heq : bus_read_message bus s now
              = (none, { bus with queue := effectiveQueue bus now }) := by
            simp [bus_read_message, hz, hscan]
          rw [heq] at hm
          simp at hm
      | some current =>
          have hcur : current = (effectiveQueue bus now).read_idx := by
            unfold readSkipFreeB at hsf
            rw [hscan] at hsf
            simpa using hsf
          subst hcur
          have hsome : bus_read_message bus s now =
              (some ((effectiveQueue bus now).messages.getD
                  (effectiveQueue bus now).read_idx.toNat zeroMessage),
               { bus with queue :=
                  { (effectiveQueue bus now) with
                      read_idx := ((effectiveQueue bus now).read_idx + 1) % MAX_BUS_MESSAGES
                      count := (effectiveQueue bus now).count - 1 } }) := by
            simp [bus_read_message, hz, hscan]
          have hcpos : 0 < (effectiveQueue bus now).count := by omega
          have hcons := queueWindow_read (effectiveQueue bus now) hcpos c3 (hM ▸ c4)
          rw [hwin1] at hcons
          have htail : pending1.tail =
              queueWindow { (effectiveQueue bus now) with
                read_idx := ((effectiveQueue bus now).read_idx + 1) % MAX_BUS_MESSAGES
                count := (effectiveQueue bus now).count - 1 } := by
            rw [hcons]
            rfl
          rw [hsome] at hm
          simp only [Option.some.injEq] at hm
          subst hm
          refine ⟨by rw [htail]; exact hcons, ?_⟩
          have hbnd : BusBounds (bus_read_message bus s now).2 :=
            busStep_bounds bus (BusOp.read s now) h.1
          rw [hsome] at hbnd ⊢
          have hplen : pending1.length = pending1.tail.length + 1 := by
            rw [hcons]
            simp
          refine ⟨hbnd, ?_, htail.symm, ?_⟩
          · show (effectiveQueue bus now).count - 1 = (pending1.tail.length : Int)
            omega
          · show (effectiveQueue bus now).write_idx
              = (((effectiveQueue bus now).read_idx + 1) % MAX_BUS_MESSAGES
                  + ((effectiveQueue bus now).count - 1)) % MAX_BUS_MESSAGES
            rw [hM] at hw1 ⊢
            omega

/-- skip-freeness unfolding: subscribe. -/
theorem skipFreeFromB_cons_subscribe (bus : Bus) (s : ComponentId) (t : MessageType)
    (rest : List BusOp) :
    skipFreeFromB bus (BusOp.subscribe s t :: rest)
      = skipFreeFromB (busStep bus (BusOp.subscribe s t)) rest := by
  simp [skipFreeFromB]

/-- skip-freeness unfolding: publish. -/
theorem skipFreeFromB_cons_publish (bus : Bus) (m : Message) (rest : List BusOp) :
    skipFreeFromB bus (BusOp.publish m :: rest)
      = skipFreeFromB (busStep bus (BusOp.publish m)) rest := by
  simp [skipFreeFromB]

/-- skip-freeness unfolding: read. -/
theorem skipFreeFromB_cons_read (bus : Bus) (s : ComponentId) (now : Int)
    (rest : List BusOp) :
    skipFreeFromB bus (BusOp.read s now :: rest)
      = (readSkipFreeB bus s now && skipFreeFromB (busStep bus (BusOp.read s now)) rest) := rfl

/-- main refinement induction for skip-free runs, pruning allowed: along
such a run every delivered message is accounted for by an accepted publish
or by the initial pending list, and the final state again represents some
pending list. -/
theorem busTrace_refinement_skipfree (ops : List BusOp) :
    ∀ (bus : Bus) (pending : List Message), BusAbs bus pending →
      skipFreeFromB bus ops = true →
      (∀ v : Message, ((busTraceAux bus ops).2).count v
          ≤ ((busTraceAux bus ops).1).count v + pending.count v) ∧
      ∃ pending2, BusAbs (ops.foldl busStep bus) pending2 := by
  induction ops with
  | nil =>
      intro bus pending habs hsf
      exact ⟨fun v => by simp [busTraceAux], ⟨pending, habs⟩⟩
  | cons op rest ih =>
      intro bus pending habs hsf
      cases op with
      | subscribe s t =>
          rw [skipFreeFromB_cons_subscribe] at hsf
          have hq : (busStep bus (BusOp.subscribe s t)).queue = bus.queue := by
            simp only [busStep]
            unfold bus_subscribe
            split <;> rfl
          have habs2 : BusAbs (busStep bus (BusOp.subscribe s t)) pending :=
            busAbs_of_queue_eq _ _ _ habs hq
          have ihres := ih (busStep bus (BusOp.subscribe s t)) pending habs2 hsf
          refine ⟨fun v => ?_, by simpa [List.foldl_cons] using ihres.2⟩
          rw [busTraceAux_subscribe]
          exact ihres.1 v
      | publish m =>
          rw [skipFreeFromB_cons_publish] at hsf
          by_cases hfull : bus.queue.count ≥ MAX_BUS_MESSAGES
          · have hfail : bus_publish bus m = (ErrorCode.errorCommunication, bus) := by
              simp [bus_publish, hfull]
            have hstep : busStep bus (BusOp.publish m) = bus := by
              simp [busStep, hfail]
            rw [hstep] at hsf
            have ihres := ih bus pending habs hsf
            refine ⟨fun v => ?_, ?_⟩
            · rw [busTraceAux_publish_fail bus m rest (by rw [hfail]; simp), hstep]
              exact ihres.1 v
            · simpa [List.foldl_cons, hstep] using ihres.2
          · push_neg at hfull
            obtain ⟨hsucc, habs2⟩ := busAbs_publish_success bus pending m habs hfull
            have ihres := ih (busStep bus (BusOp.publish m)) (pending ++ [m]) habs2 hsf
            refine ⟨fun v => ?_, by simpa [List.foldl_cons] using ihres.2⟩
            rw [busTraceAux_publish_success bus m rest hsucc]
            have h1 := ihres.1 v
            rw [List.count_append] at h1
            by_cases hmv : m = v <;>
              simp only [List.count_cons, List.count_singleton, hmv] at h1 ⊢ <;>
              simp_all <;> omega
      | read s now =>
          rw [skipFreeFromB_cons_read, Bool.and_eq_true] at hsf
          obtain ⟨hop, hrest⟩ := hsf
          obtain ⟨pending1, hcnt, hnoneC, hsomeC⟩ :=
            busAbs_read_skipfree bus pending s now habs hop
          cases hres : (bus_read_message bus s now).1 with
          | none =>
              have habs2 : BusAbs (busStep bus (BusOp.read s now)) pending1 :=
                hnoneC hres
              have ihres := ih (busStep bus (BusOp.read s now)) pending1 habs2 hrest
              refine ⟨fun v => ?_, by simpa [List.foldl_cons] using ihres.2⟩
              rw [busTraceAux_read_none bus s now rest hres]
              have h1 := ihres.1 v
              have h3 := hcnt v
              omega
          | some m =>
              obtain ⟨hpend1, habs2⟩ := hsomeC m hres
              have ihres := ih (busStep bus (BusOp.read s now)) pending1.tail habs2 hrest
              refine ⟨fun v => ?_, by simpa [List.foldl_cons] using ihres.2⟩
              rw [busTraceAux_read_some bus s now rest m hres]
              have h1 := ihres.1 v
              have h3 := hcnt v
              have hpc : pending1.count v
                  = pending1.tail.count v + (if m = v then 1 else 0) := by
                conv_lhs => rw [hpend1]
                rw [List.count_cons]
                simp [beq_iff_eq]
              have h2 : (m :: (busTraceAux (busStep bus (BusOp.read s now)) rest).2).count v
                  = (busTraceAux (busStep bus (BusOp.read s now)) rest).2.count v
                    + (if m = v then 1 else 0) := by
                rw [List.count_cons]
                simp [beq_iff_eq]
              show (m :: (busTraceAux (busStep bus (BusOp.read s now)) rest).2).count v
                  ≤ (busTraceAux (busStep bus (BusOp.read s now)) rest).1.count v
                    + pending.count v
              rcases eq_or_ne m v with hmv | hmv
              · rw [if_pos hmv] at h2 hpc
                omega
              · rw [if_neg hmv] at h2 hpc
                omega

/-- C3 (amended): as long as every successful read_message matches the
message at the front of the queue it scans — i.e. at read_idx of the
effective, possibly pruned queue, so that no message is skipped over — each
message value is returned by read_message at most as often as it was
accepted by publish: the at-most-once delivery claimed by the spec holds on
such runs, pruning included. -/
theorem skipfree_bus_delivers_each_message_at_most_once (ops : List BusOp)
    (h : skipFreeFromB bus_init ops = true) (v : Message) :
    (busDelivered ops).count v ≤ (busAccepted ops).count v := by
  have hle := (busTrace_refinement_skipfree ops bus_init [] busAbs_init h).1 v
  simpa [busAccepted, busDelivered] using hle

/-- witness for the C3 theorem on a concrete skip-free trace. -/
theorem skipfree_bus_delivers_each_message_at_most_once_witness :
    skipFreeFromB bus_init cleanTraceOps = true ∧
    (busDelivered cleanTraceOps).count respMsg
      ≤ (busAccepted cleanTraceOps).count respMsg :=
  ⟨by decide,
   skipfree_bus_delivers_each_message_at_most_once cleanTraceOps (by decide) respMsg⟩
